import Mathlib

/-!
Shallow embedding of two rizin instruction-lifting modules and proofs about
them:

* `librz/analysis/arch/arm/arm_il32.c` — the ARM32 RzIL lifter
  (condition-code construction, conditional wrapping).
* `librz/analysis/p/analysis_avr.c` — the AVR ESIL analysis plugin
  (decode-table engine, per-opcode handlers, CPU-model registry with
  inheritance, custom ESIL intrinsics).

Pure C functions become Lean functions.  Mutable state that the C code
touches is threaded explicitly:

* the static opcode table mutated by `avr_op_analyze` is passed in and
  returned,
* the static single-slot CPU-model cache of `get_cpu_model` is an explicit
  `Option Nat` argument and result,
* the live ESIL register values read during decoding (`z`, `eind`,
  `spmcsr`) are an explicit `EsilRegs` record,
* ESIL interpreter state used by custom intrinsics (value stack, byte
  registers, memory) is an explicit record.

Machine integers are `Nat` (or `Int` for C `int` quantities that can be
negative), with `% 2^64` applied where 64-bit wraparound can occur and
`&&&` masks mirroring the C masks.  All definitions are executable.
-/

/-- Wraparound of unsigned 64-bit arithmetic (C `ut64`). -/
def u64 (n : Nat) : Nat := n % 2 ^ 64

/-- Reduction of an `Int` into a C `ut64` value (two's complement wrap),
as happens when a signed displacement is added to a `ut64` address. -/
def u64ofInt (x : Int) : Nat := (x.emod (2 ^ 64)).toNat

/-- Value of C `(int)v` for a `ut64` value `v`: keep the low 32 bits and
interpret them in two's complement. -/
def int32ofU64 (v : Nat) : Int :=
  let low : Nat := v % 2 ^ 32
  if low < 2 ^ 31 then (low : Int) else (low : Int) - 2 ^ 32

/-- The `MASK(bits)` macro of analysis_avr.c:
`(bits) == 32 ? 0xffffffff : (~((~((ut32)0)) << (bits)))`.
For `bits < 32` (the only other case exercised by the table data) this is
`2 ^ bits - 1`. -/
def MASK (bits : Nat) : Nat := if bits == 32 then 0xffffffff else 2 ^ bits - 1

/-- ASCII lower-casing of one character code, as C `tolower` behaves on the
ASCII strings compared by `rz_str_casecmp` / `rz_str_ncasecmp`. -/
def lowerCode (c : Char) : Nat :=
  if 65 ≤ c.toNat && c.toNat ≤ 90 then c.toNat + 32 else c.toNat

/-- Case-insensitive string equality, modelling `rz_str_casecmp(a, b) == 0`. -/
def str_caseeq (a b : String) : Bool :=
  a.data.map lowerCode == b.data.map lowerCode

/-- Case-insensitive prefix test: `rz_str_ncasecmp(a, b, strlen(b)) == 0`,
i.e. the C macro `!STR_BEGINS(a, b)`. -/
def str_beginsWith (a b : String) : Bool :=
  (b.data.map lowerCode).isPrefixOf (a.data.map lowerCode)

/-! ## ARM32 lifter: `arm_il32.c` -/

namespace Arm32

/-- Boolean RzIL pure expressions, the fragment built by `cond()`:
global variable reads and the `INV`/`AND`/`XOR` opbuilder nodes. -/
inductive ILBool where
  | varg (name : String)
  | inv (b : ILBool)
  | band (a b : ILBool)
  | bxor (a b : ILBool)
deriving DecidableEq, Repr

/-- Evaluation of an `ILBool` expression under a flag valuation, used to
compare the built expressions against the specified boolean formulas. -/
def evalILBool (env : String → Bool) : ILBool → Bool
  | .varg n => env n
  | .inv b => ! evalILBool env b
  | .band a b => evalILBool env a && evalILBool env b
  | .bxor a b => xor (evalILBool env a) (evalILBool env b)

/-- The capstone ARM condition codes handled by `cond()`. -/
inductive ArmCC where
  | eq | ne | hs | lo | mi | pl | vs | vc | hi | ls | ge | lt | gt | le | al
deriving DecidableEq, Repr

/-- Translation of `cond()` (arm_il32.c lines 95-129).
Unconditional is returned as `none` (NULL in C) rather than true. -/
def cond : ArmCC → Option ILBool
  | .eq => some (.varg "zf")
  | .ne => some (.inv (.varg "zf"))
  | .hs => some (.varg "cf")
  | .lo => some (.inv (.varg "cf"))
  | .mi => some (.varg "nf")
  | .pl => some (.inv (.varg "nf"))
  | .vs => some (.varg "vf")
  | .vc => some (.inv (.varg "vf"))
  | .hi => some (.band (.varg "cf") (.inv (.varg "zf")))
  | .ls => some (.band (.inv (.varg "cf")) (.varg "zf"))
  | .ge => some (.inv (.bxor (.varg "nf") (.varg "vf")))
  | .lt => some (.bxor (.varg "nf") (.varg "vf"))
  | .gt => some (.band (.inv (.varg "zf")) (.inv (.bxor (.varg "nf") (.varg "vf"))))
  | .le => some (.band (.varg "zf") (.bxor (.varg "nf") (.varg "vf")))
  | .al => none

/-- RzIL effects at the granularity needed for `rz_arm_cs_32_il`:
an abstract effect produced by `il_unconditional`, the `NOP` effect, and the
`BRANCH cond then else` wrapper. -/
inductive ILEffect where
  | effTag (tag : Nat)
  | nop
  | branch (c : ILBool) (thenE elseE : ILEffect)
deriving DecidableEq, Repr

/-- Translation of `rz_arm_cs_32_il` (arm_il32.c lines 398-408), with the
instruction-specific `il_unconditional(handle, insn, thumb)` result
abstracted as the argument `eff` and `insn->detail->arm.cc` as `cc`:
a NULL effect propagates, a non-NULL condition wraps the effect in
`BRANCH(c, eff, NOP)`, and the unconditional case returns it unwrapped. -/
def rz_arm_cs_32_il (eff : Option ILEffect) (cc : ArmCC) : Option ILEffect :=
  match eff with
  | none => none
  | some e =>
    match cond cc with
    | some c => some (.branch c e .nop)
    | none => some e

/-- Flag valuation with only `nf` set: exercises LE. -/
def flagsN : String → Bool := fun s => s == "nf"

/-- Flag valuation with all flags clear: exercises LS. -/
def flagsClear : String → Bool := fun _ => false

end Arm32

open Arm32 in
/-- C1, divergence of the code from the claim: the claim (and the ARM
architecture) define LE = Z ∨ (N ⊕ V) and LS = ¬C ∨ Z, but `cond()` builds
`AND(zf, XOR(nf, vf))` for LE and `AND(INV(cf), zf)` for LS.  At
N=1, Z=0, V=0 the built LE expression evaluates to false while the claimed
formula is true; at C=0, Z=0 the built LS expression evaluates to false
while the claimed formula is true.  The remaining conditions of the claim
match, and the always condition indeed emits the effect unwrapped. -/
theorem C1_cond_le_ls_mismatch :
    ((cond .le).map (evalILBool flagsN) = some false ∧
      (flagsN "zf" || xor (flagsN "nf") (flagsN "vf")) = true) ∧
    ((cond .ls).map (evalILBool flagsClear) = some false ∧
      (!flagsClear "cf" || flagsClear "zf") = true) ∧
    ((cond .ge).map (evalILBool flagsN) =
      some (!(xor (flagsN "nf") (flagsN "vf")))) ∧
    (cond .al = none ∧
      rz_arm_cs_32_il (some (.effTag 0)) .al = some (.effTag 0)) := by
  refine ⟨⟨?_, ?_⟩, ⟨?_, ?_⟩, ?_, ?_, ?_⟩ <;> decide

/-! ## AVR plugin: `analysis_avr.c` — CPU model registry -/

namespace Avr

/-- `CPU_CONST` entry: `{key, type, value, size}`. -/
structure CPU_CONST where
  key : String
  type : Nat
  value : Nat
  size : Nat
deriving DecidableEq, Repr

/-- `CPU_CONST_NONE`. -/
def CPU_CONST_NONE : Nat := 0

/-- `CPU_CONST_PARAM`. -/
def CPU_CONST_PARAM : Nat := 1

/-- `CPU_CONST_REG`. -/
def CPU_CONST_REG : Nat := 2

/-- `CPU_MODEL`: model name, program-counter width, optional parent name and
the NULL-terminated array of NULL-terminated constant groups, modelled as a
list of lists (terminator entries dropped).  The memoized
`inherit_cpu_p` back-pointer is not stored: inheritance is resolved through
the table at lookup time, which yields the same chain that
`__get_cpu_model_recursive` memoizes. -/
structure CPU_MODEL where
  model : String
  pc : Nat
  inherit : Option String := none
  consts : List (List CPU_CONST) := []
deriving DecidableEq, Repr

/-- `cpu_reg_common`. -/
def cpu_reg_common : List CPU_CONST :=
  [⟨"spl", CPU_CONST_REG, 0x3d, 1⟩,
   ⟨"sph", CPU_CONST_REG, 0x3e, 1⟩,
   ⟨"sreg", CPU_CONST_REG, 0x3f, 1⟩,
   ⟨"spmcsr", CPU_CONST_REG, 0x37, 1⟩]

/-- `cpu_memsize_common`. -/
def cpu_memsize_common : List CPU_CONST :=
  [⟨"eeprom_size", CPU_CONST_PARAM, 512, 4⟩,
   ⟨"io_size", CPU_CONST_PARAM, 0x40, 4⟩,
   ⟨"sram_start", CPU_CONST_PARAM, 0x60, 4⟩,
   ⟨"sram_size", CPU_CONST_PARAM, 1024, 4⟩]

/-- `cpu_memsize_m640_m1280m_m1281_m2560_m2561`. -/
def cpu_memsize_m640_m1280m_m1281_m2560_m2561 : List CPU_CONST :=
  [⟨"eeprom_size", CPU_CONST_PARAM, 512, 4⟩,
   ⟨"io_size", CPU_CONST_PARAM, 0x1ff, 4⟩,
   ⟨"sram_start", CPU_CONST_PARAM, 0x200, 4⟩,
   ⟨"sram_size", CPU_CONST_PARAM, 0x2000, 4⟩]

/-- `cpu_memsize_xmega128a4u`. -/
def cpu_memsize_xmega128a4u : List CPU_CONST :=
  [⟨"eeprom_size", CPU_CONST_PARAM, 0x800, 4⟩,
   ⟨"io_size", CPU_CONST_PARAM, 0x1000, 4⟩,
   ⟨"sram_start", CPU_CONST_PARAM, 0x800, 4⟩,
   ⟨"sram_size", CPU_CONST_PARAM, 0x2000, 4⟩]

/-- `cpu_pagesize_5_bits`. -/
def cpu_pagesize_5_bits : List CPU_CONST :=
  [⟨"page_size", CPU_CONST_PARAM, 5, 1⟩]

/-- `cpu_pagesize_7_bits`. -/
def cpu_pagesize_7_bits : List CPU_CONST :=
  [⟨"page_size", CPU_CONST_PARAM, 7, 1⟩]

/-- `cpu_models` (analysis_avr.c lines 133-152).  The last entry
(ATmega8) doubles as the default model. -/
def cpu_models : List CPU_MODEL :=
  [{ model := "ATmega640", pc := 15,
     consts := [cpu_reg_common, cpu_memsize_m640_m1280m_m1281_m2560_m2561,
                cpu_pagesize_7_bits] },
   { model := "ATxmega128a4u", pc := 17,
     consts := [cpu_reg_common, cpu_memsize_xmega128a4u, cpu_pagesize_7_bits] },
   { model := "ATmega1280", pc := 16, inherit := some "ATmega640" },
   { model := "ATmega1281", pc := 16, inherit := some "ATmega640" },
   { model := "ATmega2560", pc := 17, inherit := some "ATmega640" },
   { model := "ATmega2561", pc := 17, inherit := some "ATmega640" },
   { model := "ATmega88", pc := 8, inherit := some "ATmega8" },
   { model := "ATmega8", pc := 13,
     consts := [cpu_reg_common, cpu_memsize_common, cpu_pagesize_5_bits] }]

/-- Fetch of a `CPU_MODEL *` by table index; an out-of-table pointer never
arises in the C code, the last entry is used as fallback here so that the
function is total. -/
def getCpu (i : Nat) : CPU_MODEL :=
  cpu_models.getD i
    ({ model := "ATmega8", pc := 13,
       consts := [cpu_reg_common, cpu_memsize_common, cpu_pagesize_5_bits] })

/-- Search loop of `__get_cpu_model_recursive` (lines 159-163): scan all
entries but the last; when none matches, the cursor ends at the last
entry — "last model is the default AVR - ATmega8 forever!".  Returns the
index of the resulting `CPU_MODEL *`.  (The inheritance
fix-up performed on the returned node is modelled at constant lookup, see
`const_by_name`.) -/
def searchCpuModel (name : String) : Nat :=
  match (cpu_models.take (cpu_models.length - 1)).findIdx?
      (fun c => str_caseeq name c.model) with
  | some i => i
  | none => cpu_models.length - 1

/-- `get_cpu_model` (lines 176-185) with its static single-slot cache made
explicit: if the cached model's name matches, it is returned as is;
otherwise the real search runs and refills the cache. -/
def get_cpu_model (name : String) (cache : Option Nat) : Nat × Option Nat :=
  match cache with
  | some i =>
    if str_caseeq name (getCpu i).model then (i, some i)
    else
      let j := searchCpuModel name
      (j, some j)
  | none =>
    let j := searchCpuModel name
    (j, some j)

/-- `const_get_value` (lines 187-189): `c ? MASK(c->size * 8) & c->value : 0`. -/
def const_get_value (c : Option CPU_CONST) : Nat :=
  match c with
  | some ci => MASK (ci.size * 8) &&& ci.value
  | none => 0

/-- Scan of the local constant groups of one model, the nested `for` loops
of `const_by_name` (lines 194-200): first entry whose key matches and whose
type matches (or `CPU_CONST_NONE` was requested). -/
def localConstScan (cpu : CPU_MODEL) (type : Nat) (c : String) : Option CPU_CONST :=
  cpu.consts.findSome? fun grp =>
    grp.find? fun ci => ci.key == c && (type == CPU_CONST_NONE || type == ci.type)

/-- `const_by_name` (lines 191-206): local scan, then recursion into the
resolved parent; `none` (NULL, with an error log in C) when the whole chain
misses.  The parent pointer `inherit_cpu_p` is resolved through
`get_cpu_model`'s search as the C fix-up does; `fuel` bounds the recursion
(the real inheritance forest has depth 2). -/
def const_by_name : Nat → CPU_MODEL → Nat → String → Option CPU_CONST
  | 0, _, _, _ => none
  | fuel + 1, cpu, type, c =>
    match localConstScan cpu type c with
    | some ci => some ci
    | none =>
      match cpu.inherit with
      | some parent => const_by_name fuel (getCpu (searchCpuModel parent)) type c
      | none => none

/-- `const_by_value` (lines 218-232): like `const_by_name` but matching on
the (size-masked) value. -/
def const_by_value : Nat → CPU_MODEL → Nat → Nat → Option CPU_CONST
  | 0, _, _, _ => none
  | fuel + 1, cpu, type, v =>
    match cpu.consts.findSome? (fun grp =>
        grp.find? fun ci =>
          ci.value == (MASK (ci.size * 8) &&& v) &&
            (type == CPU_CONST_NONE || type == ci.type)) with
    | some ci => some ci
    | none =>
      match cpu.inherit with
      | some parent => const_by_value fuel (getCpu (searchCpuModel parent)) type v
      | none => none

/-- Recursion fuel ample for the whole `cpu_models` inheritance forest. -/
def chainFuel : Nat := cpu_models.length

/-- Key presence anywhere along a model's inheritance chain (any type),
used to state what "absent from the entire chain" means. -/
def keyInChain : Nat → CPU_MODEL → String → Bool
  | 0, _, _ => false
  | fuel + 1, cpu, c =>
    cpu.consts.any (fun grp => grp.any fun ci => ci.key == c) ||
      match cpu.inherit with
      | some parent => keyInChain fuel (getCpu (searchCpuModel parent)) c
      | none => false

end Avr

namespace Avr

/-- Out-of-table indices fall back to the last entry's value. -/
lemma getCpu_high (i : Nat) (h : 8 ≤ i) : getCpu i = getCpu 7 := by
  unfold getCpu
  rw [List.getD_eq_default _ _ (by simpa [cpu_models] using h)]
  rfl

/-- Every `getCpu` result is one of the eight table entries. -/
lemma getCpu_mem (i : Nat) : getCpu i ∈ cpu_models := by
  by_cases h : i < 8
  · interval_cases i <;> decide
  · rw [getCpu_high i (by omega)]; decide

/-- When the requested name matches entry `j` case-insensitively, the search
of `__get_cpu_model_recursive` lands exactly on entry `j` (for `j = 7`, the
scan excludes the last entry, but the default fall-through is that very
entry). -/
lemma searchCpuModel_eq_of_match (name : String) (j : Nat) (hj : j < 8)
    (h : name.data.map lowerCode = ((getCpu j).model).data.map lowerCode) :
    searchCpuModel name = j := by
  interval_cases j <;>
    (unfold searchCpuModel str_caseeq; simp only [h]; decide)

/-- A key missing from the whole inheritance chain makes `const_by_name`
return NULL (no crash, no abort: just `none`). -/
lemma const_by_name_none_of_absent (fuel : Nat) :
    ∀ (cpu : CPU_MODEL) (t : Nat) (k : String),
      keyInChain fuel cpu k = false → const_by_name fuel cpu t k = none := by
  induction fuel with
  | zero => intro cpu t k _; rfl
  | succ n ih =>
    intro cpu t k h
    unfold keyInChain at h
    rw [Bool.or_eq_false_iff] at h
    obtain ⟨hlocal, hparent⟩ := h
    have hscan : localConstScan cpu t k = none := by
      unfold localConstScan
      rw [List.findSome?_eq_none_iff]
      intro grp hgrp
      rw [List.find?_eq_none]
      intro ci hci hpred
      have hkey : (ci.key == k) = true := by
        simp only [Bool.and_eq_true] at hpred
        exact hpred.1
      have hany : cpu.consts.any (fun grp => grp.any fun ci => ci.key == k) = true :=
        List.any_eq_true.mpr ⟨grp, hgrp, List.any_eq_true.mpr ⟨ci, hci, hkey⟩⟩
      rw [hany] at hlocal
      exact absurd hlocal (by decide)
    unfold const_by_name
    rw [hscan]
    cases hp : cpu.inherit with
    | none => rfl
    | some parent =>
      rw [hp] at hparent
      exact ih (getCpu (searchCpuModel parent)) t k hparent

end Avr

/-- C5, counterexample to the claim as stated: looking up a variant name
that is not in `cpu_models` does not return a zero/unknown sentinel — it
returns the last table entry, the fully populated default model ATmega8
(pc = 13, non-empty constant groups), exactly as if that model had been
requested.  (No logging happens on this path either: the only `eprintf` in
the lookup concerns a broken `inherit` field.) -/
theorem C5_counterexample_unknown_variant_gets_default :
    (Avr.get_cpu_model "not_a_real_avr" none).1 = 7 ∧
    (Avr.getCpu 7).model = "ATmega8" ∧
    (Avr.getCpu 7).pc = 13 ∧
    (Avr.getCpu 7).consts ≠ [] := by
  decide

/-- C5 as amended: for every variant name that matches no entry of the CPU
model table (case-insensitively), lookup is non-fatal and silently returns
the default model — the last table entry, ATmega8 — regardless of the cache
state; no sentinel is produced. -/
theorem C5_amended_unknown_variant_default_model (name : String) (c : Option Nat)
    (h : ∀ m ∈ Avr.cpu_models, str_caseeq name m.model = false) :
    Avr.searchCpuModel name = 7 ∧
    Avr.getCpu ((Avr.get_cpu_model name c).1) = Avr.getCpu 7 := by
  have hsearch : Avr.searchCpuModel name = 7 := by
    unfold Avr.searchCpuModel
    have hnone : (Avr.cpu_models.take (Avr.cpu_models.length - 1)).findIdx?
        (fun m => str_caseeq name m.model) = none := by
      rw [List.findIdx?_eq_none_iff]
      intro x hx
      exact h x (List.mem_of_mem_take hx)
    rw [hnone]
    rfl
  refine ⟨hsearch, ?_⟩
  unfold Avr.get_cpu_model
  cases c with
  | none => simp [hsearch]
  | some i =>
    have hmiss : str_caseeq name (Avr.getCpu i).model = false :=
      h _ (Avr.getCpu_mem i)
    simp [hmiss, hsearch]

/-- Witness for C5's amended claim at a concrete unknown name and a
non-empty cache slot. -/
theorem C5_amended_witness :
    Avr.searchCpuModel "imaginary_cpu" = 7 ∧
    Avr.getCpu ((Avr.get_cpu_model "imaginary_cpu" (some 3)).1) = Avr.getCpu 7 :=
  C5_amended_unknown_variant_default_model "imaginary_cpu" (some 3) (by decide)

/-- C9: constant lookup with inheritance.  (1) ATmega1280 (table entry 2)
has no local constant group, so every local scan misses; (2) whenever the
local scan of a model misses, `const_by_name` continues with the resolved
parent (and yields NULL at a root); (3) a key absent from the entire
inheritance chain makes `const_get_value (const_by_name ...)` return the
zero sentinel — no crash, no decode abort, just 0; (4) concretely, the
parent-only constant `page_size` of ATmega1280 resolves through ATmega640
to 7. -/
theorem C9_constant_inheritance :
    (∀ t k, Avr.localConstScan (Avr.getCpu 2) t k = none) ∧
    (∀ fuel cpu t k p, Avr.localConstScan cpu t k = none →
        cpu.inherit = some p →
        Avr.const_by_name (fuel + 1) cpu t k =
          Avr.const_by_name fuel (Avr.getCpu (Avr.searchCpuModel p)) t k) ∧
    (∀ fuel cpu t k, Avr.localConstScan cpu t k = none →
        cpu.inherit = none → Avr.const_by_name (fuel + 1) cpu t k = none) ∧
    (∀ t k cpu, Avr.keyInChain Avr.chainFuel cpu k = false →
        Avr.const_get_value (Avr.const_by_name Avr.chainFuel cpu t k) = 0) ∧
    Avr.const_get_value
      (Avr.const_by_name Avr.chainFuel (Avr.getCpu 2) Avr.CPU_CONST_PARAM
        "page_size") = 7 := by
  have hstep : ∀ fuel cpu t k, Avr.const_by_name (fuel + 1) cpu t k =
      (match Avr.localConstScan cpu t k with
       | some ci => some ci
       | none =>
         match cpu.inherit with
         | some parent =>
           Avr.const_by_name fuel (Avr.getCpu (Avr.searchCpuModel parent)) t k
         | none => none) := fun _ _ _ _ => rfl
  refine ⟨?_, ?_, ?_, ?_, ?_⟩
  · intro t k
    have hc : (Avr.getCpu 2).consts = [] := by decide
    unfold Avr.localConstScan
    rw [hc]
    rfl
  · intro fuel cpu t k p h hp
    rw [hstep, h, hp]
  · intro fuel cpu t k h hp
    rw [hstep, h, hp]
  · intro t k cpu h
    rw [Avr.const_by_name_none_of_absent _ cpu t k h]
    rfl
  · decide

/-- Witness for C9 at a concrete model and a concrete absent key. -/
theorem C9_witness :
    Avr.const_get_value (Avr.const_by_name Avr.chainFuel (Avr.getCpu 2)
      Avr.CPU_CONST_PARAM "definitely_absent") = 0 :=
  C9_constant_inheritance.2.2.2.1 Avr.CPU_CONST_PARAM "definitely_absent"
    (Avr.getCpu 2) (by decide)

/-! ## AVR plugin: decode-table engine and per-opcode handlers -/

namespace Avr

/-- `CPU_PC_SIZE(cpu)`: `(((cpu)->pc) >> 3) + ((((cpu)->pc) & 0x07) ? 1 : 0)`. -/
def CPU_PC_SIZE (cpu : CPU_MODEL) : Nat :=
  (cpu.pc >>> 3) + (if cpu.pc &&& 0x07 != 0 then 1 else 0)

/-- `CPU_PC_MASK(cpu)`: `MASK((cpu)->pc)`. -/
def CPU_PC_MASK (cpu : CPU_MODEL) : Nat := MASK cpu.pc

/-- `UT64_MAX`. -/
def UT64MAX : Nat := 2 ^ 64 - 1

/-- One-character string (C `%c`). -/
def charStr (c : Char) : String := String.mk [c]

/-- Lower-case hexadecimal rendering (C `%x`). -/
def hexStr (n : Nat) : String := String.mk (Nat.toDigits 16 n)

/-- The `RZ_ANALYSIS_OP_TYPE_*` values used by this plugin. -/
inductive OpType where
  | null | trap | ucall | ujmp | load | nop | ret | mov | mul | and | crypto
  | add | sub | io | xor | shr | not | sar | pop | push | store | call | jmp
  | cjmp | cmp | or | unk
deriving DecidableEq, Repr

/-- The `RZ_ANALYSIS_OP_FAMILY_*` values used by this plugin. -/
inductive OpFamily where
  | unknown | io | priv
deriving DecidableEq, Repr

/-- The fields of `RzAnalysisOp` that analysis_avr.c reads or writes.
The defaults are the zero-initialization of `RzAnalysisOp next_op = { 0 }`. -/
structure RzOp where
  addr : Nat := 0
  size : Nat := 0
  cycles : Int := 0
  type : OpType := .null
  type2 : Nat := 0
  family : OpFamily := .unknown
  jump : Nat := 0
  fail : Nat := 0
  val : Nat := 0
  ptr : Nat := 0
  mmio_address : Nat := 0
  eob : Bool := false
  nopcode : Bool := false
  esil : String := ""
  mnemonic : String := ""
deriving DecidableEq, Repr

/-- The live ESIL register values read by handlers during decoding via
`rz_analysis_esil_reg_read` (`z`, `eind`, `spmcsr`). -/
structure EsilRegs where
  z : Nat := 0
  eind : Nat := 0
  spmcsr : Nat := 0
deriving DecidableEq, Repr

/-- `__generic_io_dest(port, write, cpu)` (lines 234-247): a named register
if the variant defines a register constant with that address, otherwise a
synthetic `_io`-based memory access. -/
def generic_io_dest (port : Nat) (write : Bool) (cpu : CPU_MODEL) : String :=
  match const_by_value chainFuel cpu CPU_CONST_REG port with
  | some c => c.key ++ (if write then ",=" else "")
  | none => "_io," ++ toString port ++ ",+," ++ (if write then "=" else "") ++ "[1]"

/-- ESIL text appended by `__generic_ld_st(op, mem, ireg, use_ramp,
prepostdec, offset, st)` (lines 249-275).  `ESIL_A` only appends to
`op->esil`, so the helper is modelled as the appended string; `ireg = none`
is the C `ireg == 0` case. -/
def generic_ld_st (mem : String) (ireg : Option Char) (use_ramp : Bool)
    (prepostdec : Int) (offset : Nat) (st : Bool) : String :=
  (match ireg with
   | some i =>
     (if prepostdec < 0 then "1," ++ charStr i ++ ",-," ++ charStr i ++ ",=," else "")
       ++ charStr i ++ ","
       ++ (if offset != 0 then toString offset ++ ",+," else "")
   | none => toString offset ++ ",")
  ++ (if use_ramp then "16,ramp" ++ charStr (ireg.getD 'd') ++ ",<<,+," else "")
  ++ "_" ++ mem ++ ",+,"
  ++ (if st then "=" else "") ++ "[1],"
  ++ (match ireg with
      | some i =>
        if prepostdec > 0 then "1," ++ charStr i ++ ",+," ++ charStr i ++ ",=," else ""
      | none => "")

/-- ESIL text appended by `__generic_pop(op, sz)` (lines 277-286). -/
def generic_pop (sz : Nat) : String :=
  if sz > 1 then
    "1,sp,+,_ram,+," ++ "[" ++ toString sz ++ "]," ++ toString sz ++ ",sp,+=,"
  else
    "1,sp,+=," ++ "sp,_ram,+,[1],"

/-- ESIL text appended by `__generic_push(op, sz)` (lines 288-295). -/
def generic_push (sz : Nat) : String :=
  "sp,_ram,+,"
    ++ (if sz > 1 then "-" ++ toString (sz - 1) ++ ",+," else "")
    ++ "=[" ++ toString sz ++ "],"
    ++ "-" ++ toString sz ++ ",sp,+=,"

/-- `INST_HANDLER(adc)` — ADC Rd, Rr (ROL Rd). -/
def inst_adc (_cpu : CPU_MODEL) (buf : List Nat) (len : Nat) (op : RzOp) : RzOp × Bool :=
  if len < 2 then (op, false) else
  let d := ((buf.getD 0 0 >>> 4) &&& 0xf) ||| ((buf.getD 1 0 &&& 1) <<< 4)
  let r := (buf.getD 0 0 &&& 0xf) ||| ((buf.getD 1 0 &&& 2) <<< 3)
  ({ op with esil := op.esil
      ++ "r" ++ toString r ++ ",cf,+,r" ++ toString d ++ ",+=,"
      ++ "$z,zf,:=,"
      ++ "3,$c,hf,:=,"
      ++ "7,$c,cf,:=,"
      ++ "7,$o,vf,:=,"
      ++ "0x80,r" ++ toString d ++ ",&,!,!,nf,:=" }, false)

/-- `INST_HANDLER(add)` — ADD Rd, Rr (LSL Rd). -/
def inst_add (_cpu : CPU_MODEL) (buf : List Nat) (len : Nat) (op : RzOp) : RzOp × Bool :=
  if len < 2 then (op, false) else
  let d := ((buf.getD 0 0 >>> 4) &&& 0xf) ||| ((buf.getD 1 0 &&& 1) <<< 4)
  let r := (buf.getD 0 0 &&& 0xf) ||| ((buf.getD 1 0 &&& 2) <<< 3)
  ({ op with esil := op.esil
      ++ "r" ++ toString r ++ ",r" ++ toString d ++ ",+=,"
      ++ "$z,zf,:=,"
      ++ "3,$c,hf,:=,"
      ++ "7,$c,cf,:=,"
      ++ "7,$o,vf,:=,"
      ++ "0x80,r" ++ toString d ++ ",&,!,!,nf,:=," }, false)

/-- `INST_HANDLER(adiw)` — ADIW Rd+1:Rd, K. -/
def inst_adiw (_cpu : CPU_MODEL) (buf : List Nat) (len : Nat) (op : RzOp) : RzOp × Bool :=
  if len < 1 then (op, false) else
  let d := ((buf.getD 0 0 &&& 0x30) >>> 3) + 24
  let k := (buf.getD 0 0 &&& 0x0f) ||| ((buf.getD 0 0 >>> 2) &&& 0x30)
  ({ op with val := k, esil := op.esil
      ++ "7,r" ++ toString (d + 1) ++ ",>>,"
      ++ "8," ++ toString k ++ ",8,r" ++ toString (d + 1) ++ ",<<,r" ++ toString d
      ++ ",|,+,DUP,r" ++ toString d ++ ",=,>>,r" ++ toString (d + 1) ++ ",=,"
      ++ "DUP,!,7,r" ++ toString (d + 1) ++ ",>>,&,vf,:=,"
      ++ "r" ++ toString (d + 1) ++ ",0x80,&,!,!,nf,:=,"
      ++ "8,r" ++ toString (d + 1) ++ ",<<,r" ++ toString d ++ ",|,!,zf,:=,"
      ++ "7,r" ++ toString (d + 1) ++ ",>>,!,&,cf,:=,"
      ++ "vf,nf,^,sf,:=" }, false)

/-- `INST_HANDLER(and)` — AND Rd, Rr (TST Rd). -/
def inst_and (_cpu : CPU_MODEL) (buf : List Nat) (len : Nat) (op : RzOp) : RzOp × Bool :=
  if len < 2 then (op, false) else
  let d := ((buf.getD 0 0 >>> 4) &&& 0xf) ||| ((buf.getD 1 0 &&& 1) <<< 4)
  let r := (buf.getD 0 0 &&& 0xf) ||| ((buf.getD 1 0 &&& 2) <<< 3)
  ({ op with esil := op.esil
      ++ "r" ++ toString r ++ ",r" ++ toString d ++ ",&=,$z,zf,:=,r" ++ toString d
      ++ ",0x80,&,!,!,nf,:=,0,vf,:=,nf,sf,:=," }, false)

/-- `INST_HANDLER(andi)` — ANDI Rd, K (CBR Rd, K). -/
def inst_andi (_cpu : CPU_MODEL) (buf : List Nat) (len : Nat) (op : RzOp) : RzOp × Bool :=
  if len < 2 then (op, false) else
  let d := ((buf.getD 0 0 >>> 4) &&& 0xf) + 16
  let k := ((buf.getD 1 0 &&& 0x0f) <<< 4) ||| (buf.getD 0 0 &&& 0x0f)
  ({ op with val := k, esil := op.esil
      ++ toString k ++ ",r" ++ toString d ++ ",&=,$z,zf,:=,r" ++ toString d
      ++ ",0x80,&,!,!,nf,:=,0,vf,:=,nf,sf,:=," }, false)

/-- `INST_HANDLER(asr)` — ASR Rd. -/
def inst_asr (_cpu : CPU_MODEL) (buf : List Nat) (len : Nat) (op : RzOp) : RzOp × Bool :=
  if len < 2 then (op, false) else
  let d := ((buf.getD 0 0 >>> 4) &&& 0xf) ||| ((buf.getD 1 0 &&& 1) <<< 4)
  ({ op with esil := op.esil
      ++ "r" ++ toString d ++ ",0x1,&,cf,:=,0x1,r" ++ toString d ++ ",>>,r"
      ++ toString d ++ ",0x80,&,|,"
      ++ "$z,zf,:=,"
      ++ "r" ++ toString d ++ ",0x80,&,!,!,nf,:=,"
      ++ "nf,cf,^,vf,:=,"
      ++ "nf,vf,^,sf,:=," }, false)

/-- `INST_HANDLER(bclr)` — BCLR s (CLC/CLH/CLI/CLN/CLR/CLS/CLT/CLV/CLZ). -/
def inst_bclr (_cpu : CPU_MODEL) (buf : List Nat) (len : Nat) (op : RzOp) : RzOp × Bool :=
  if len < 1 then (op, false) else
  let s := (buf.getD 0 0 >>> 4) &&& 0x7
  ({ op with esil := op.esil ++ "0xff," ++ toString s ++ ",1,<<,^,sreg,&=," }, false)

/-- `INST_HANDLER(bld)` — BLD Rd, b. -/
def inst_bld (_cpu : CPU_MODEL) (buf : List Nat) (len : Nat) (op : RzOp) : RzOp × Bool :=
  if len < 2 then (op, false) else
  let d := ((buf.getD 1 0 &&& 0x01) <<< 4) ||| ((buf.getD 0 0 >>> 4) &&& 0xf)
  let b := buf.getD 0 0 &&& 0x7
  ({ op with esil := op.esil
      ++ "r" ++ toString d ++ "," ++ toString b ++ ",1,<<,0xff,^,&,"
      ++ toString b ++ ",tf,<<,|,r" ++ toString d ++ ",=," }, false)

/-- `INST_HANDLER(brbx)` — BRBC s, k / BRBS s, k. -/
def inst_brbx (_cpu : CPU_MODEL) (buf : List Nat) (len : Nat) (op : RzOp) : RzOp × Bool :=
  if len < 2 then (op, false) else
  let s := buf.getD 0 0 &&& 0x7
  let base := ((buf.getD 1 0 &&& 0x03) <<< 6) ||| ((buf.getD 0 0 &&& 0xf8) >>> 2)
  let disp : Int :=
    if buf.getD 1 0 &&& 0x2 != 0 then int32ofU64 (base ||| 0xffffff80)
    else (base : Int)
  let jump := u64ofInt ((op.addr : Int) + disp + 2)
  let op := { op with jump := jump, fail := u64 (op.addr + op.size), cycles := 1 }
  ({ op with esil := op.esil
      ++ toString s ++ ",1,<<,sreg,&,"
      ++ (if buf.getD 1 0 &&& 0x4 != 0 then "!," else "!,!,")
      ++ "?\x7b," ++ toString jump ++ ",pc,=,\x7d," }, false)

/-- `INST_HANDLER(break)` — BREAK. -/
def inst_break (_cpu : CPU_MODEL) (_buf : List Nat) (_len : Nat) (op : RzOp) : RzOp × Bool :=
  ({ op with esil := op.esil ++ "BREAK" }, false)

/-- `INST_HANDLER(bset)` — BSET s (SEC/SEH/.../SEZ). -/
def inst_bset (_cpu : CPU_MODEL) (buf : List Nat) (len : Nat) (op : RzOp) : RzOp × Bool :=
  if len < 1 then (op, false) else
  let s := (buf.getD 0 0 >>> 4) &&& 0x7
  ({ op with esil := op.esil ++ toString s ++ ",1,<<,sreg,|=," }, false)

/-- `INST_HANDLER(bst)` — BST Rd, b. -/
def inst_bst (_cpu : CPU_MODEL) (buf : List Nat) (len : Nat) (op : RzOp) : RzOp × Bool :=
  if len < 2 then (op, false) else
  let r := ((buf.getD 1 0 &&& 1) <<< 4) ||| ((buf.getD 0 0 >>> 4) &&& 0xf)
  let b := buf.getD 0 0 &&& 0x7
  ({ op with esil := op.esil
      ++ "r" ++ toString r ++ "," ++ toString b ++ ",1,<<,&,!,!,tf,=," }, false)

/-- `INST_HANDLER(call)` — CALL k. -/
def inst_call (cpu : CPU_MODEL) (buf : List Nat) (len : Nat) (op : RzOp) : RzOp × Bool :=
  if len < 4 then (op, false) else
  let jump := (buf.getD 2 0 <<< 1) ||| (buf.getD 3 0 <<< 9)
    ||| ((buf.getD 1 0 &&& 0x01) <<< 23) ||| ((buf.getD 0 0 &&& 0x01) <<< 17)
    ||| ((buf.getD 0 0 &&& 0xf0) <<< 14)
  let cycles : Int := if cpu.pc ≤ 16 then 3 else 4
  let cycles := if str_beginsWith cpu.model "ATxmega" then cycles - 1 else cycles
  ({ op with
      jump := jump
      fail := u64 (op.addr + op.size)
      cycles := cycles
      esil := op.esil ++ "pc," ++ generic_push (CPU_PC_SIZE cpu)
        ++ toString jump ++ ",pc,=," }, false)

/-- `INST_HANDLER(cbi)` — CBI A, b. -/
def inst_cbi (cpu : CPU_MODEL) (buf : List Nat) (len : Nat) (op : RzOp) : RzOp × Bool :=
  if len < 1 then (op, false) else
  let a := (buf.getD 0 0 >>> 3) &&& 0x1f
  let b := buf.getD 0 0 &&& 0x07
  let op := { op with family := .io, type2 := 1, val := a }
  ({ op with esil := op.esil
      ++ "0xff," ++ toString b ++ ",1,<<,^," ++ generic_io_dest a false cpu ++ ",&,"
      ++ generic_io_dest a true cpu ++ "," }, false)

/-- `INST_HANDLER(com)` — COM Rd. -/
def inst_com (_cpu : CPU_MODEL) (buf : List Nat) (len : Nat) (op : RzOp) : RzOp × Bool :=
  if len < 2 then (op, false) else
  let r := ((buf.getD 0 0 >>> 4) &&& 0x0f) ||| ((buf.getD 1 0 &&& 1) <<< 4)
  ({ op with esil := op.esil
      ++ "r" ++ toString r ++ ",0xff,-,r" ++ toString r ++ ",=,$z,zf,:=,0,cf,:=,0,vf,:=,r"
      ++ toString r ++ ",0x80,&,!,!,nf,:=,vf,nf,^,sf,:=" }, false)

/-- `INST_HANDLER(cp)` — CP Rd, Rr. -/
def inst_cp (_cpu : CPU_MODEL) (buf : List Nat) (len : Nat) (op : RzOp) : RzOp × Bool :=
  if len < 2 then (op, false) else
  let r := (buf.getD 0 0 &&& 0x0f) ||| ((buf.getD 1 0 <<< 3) &&& 0x10)
  let d := ((buf.getD 0 0 >>> 4) &&& 0x0f) ||| ((buf.getD 1 0 <<< 4) &&& 0x10)
  ({ op with esil := op.esil
      ++ "r" ++ toString r ++ ",r" ++ toString d ++ ",-,0x80,&,!,!,nf,:=,"
      ++ "r" ++ toString r ++ ",r" ++ toString d ++ ",==,"
      ++ "$z,zf,:=,"
      ++ "3,$b,hf,:=,"
      ++ "8,$b,cf,:=,"
      ++ "7,$o,vf,:=,"
      ++ "vf,nf,^,sf,:=" }, false)

/-- `INST_HANDLER(cpc)` — CPC Rd, Rr. -/
def inst_cpc (_cpu : CPU_MODEL) (buf : List Nat) (len : Nat) (op : RzOp) : RzOp × Bool :=
  if len < 2 then (op, false) else
  let r := (buf.getD 0 0 &&& 0x0f) ||| ((buf.getD 1 0 <<< 3) &&& 0x10)
  let d := ((buf.getD 0 0 >>> 4) &&& 0x0f) ||| ((buf.getD 1 0 <<< 4) &&& 0x10)
  ({ op with esil := op.esil
      ++ "cf,r" ++ toString r ++ ",+,DUP,r" ++ toString d ++ ",-,0x80,&,!,!,nf,:=,"
      ++ "r" ++ toString d ++ ",==,"
      ++ "$z,zf,:=,"
      ++ "3,$b,hf,:=,"
      ++ "8,$b,cf,:=,"
      ++ "7,$o,vf,:=,"
      ++ "vf,nf,^,sf,:=" }, false)

/-- `INST_HANDLER(cpi)` — CPI Rd, K. -/
def inst_cpi (_cpu : CPU_MODEL) (buf : List Nat) (len : Nat) (op : RzOp) : RzOp × Bool :=
  if len < 2 then (op, false) else
  let d := ((buf.getD 0 0 >>> 4) &&& 0xf) + 16
  let k := (buf.getD 0 0 &&& 0xf) ||| ((buf.getD 1 0 &&& 0xf) <<< 4)
  ({ op with esil := op.esil
      ++ toString k ++ ",r" ++ toString d ++ ",-,0x80,&,!,!,nf,:=,"
      ++ toString k ++ ",r" ++ toString d ++ ",==,"
      ++ "$z,zf,:=,"
      ++ "3,$b,hf,:=,"
      ++ "8,$b,cf,:=,"
      ++ "7,$o,vf,:=,"
      ++ "vf,nf,^,sf,:=" }, false)

/-- `INST_HANDLER(dec)` — DEC Rd. -/
def inst_dec (_cpu : CPU_MODEL) (buf : List Nat) (len : Nat) (op : RzOp) : RzOp × Bool :=
  if len < 2 then (op, false) else
  let d := ((buf.getD 0 0 >>> 4) &&& 0xf) ||| ((buf.getD 1 0 &&& 0x1) <<< 4)
  ({ op with esil := op.esil
      ++ "0x1,r" ++ toString d ++ ",-=,"
      ++ "7,$o,vf,:=,"
      ++ "r" ++ toString d ++ ",0x80,&,!,!,nf,:=,"
      ++ "$z,zf,:=,"
      ++ "vf,nf,^,sf,:=," }, false)

/-- `INST_HANDLER(des)` — DES k.  Note that `rz_strbuf_setf` replaces any
previously accumulated esil text instead of appending. -/
def inst_des (_cpu : CPU_MODEL) (buf : List Nat) (_len : Nat) (op : RzOp) : RzOp × Bool :=
  let op := { op with type := .crypto, cycles := 1 }
  let round := buf.getD 0 0 >>> 4
  ({ op with esil := toString round ++ ",des" }, false)

/-- `INST_HANDLER(elpm)` — ELPM / ELPM Rd / ELPM Rd, Z+. -/
def inst_elpm (_cpu : CPU_MODEL) (buf : List Nat) (len : Nat) (op : RzOp) : RzOp × Bool :=
  if len < 2 then (op, false) else
  let d := if (buf.getD 1 0 &&& 0xfe) == 0x90 then
      ((buf.getD 1 0 &&& 1) <<< 4) ||| ((buf.getD 0 0 >>> 4) &&& 0xf)
    else 0
  ({ op with esil := op.esil
      ++ "16,rampz,<<,z,+,_prog,+,[1],"
      ++ "r" ++ toString d ++ ",=,"
      ++ (if (buf.getD 1 0 &&& 0xfe) == 0x90 && (buf.getD 0 0 &&& 0xf) == 0x7 then
            "16,1,z,+,DUP,z,=,>>,1,&,rampz,+=,"
          else "") }, false)

/-- `INST_HANDLER(eor)` — EOR Rd, Rr (CLR Rd). -/
def inst_eor (_cpu : CPU_MODEL) (buf : List Nat) (len : Nat) (op : RzOp) : RzOp × Bool :=
  if len < 2 then (op, false) else
  let d := ((buf.getD 0 0 >>> 4) &&& 0xf) ||| ((buf.getD 1 0 &&& 1) <<< 4)
  let r := (buf.getD 0 0 &&& 0xf) ||| ((buf.getD 1 0 &&& 2) <<< 3)
  ({ op with esil := op.esil
      ++ "r" ++ toString r ++ ",r" ++ toString d ++ ",^=,$z,zf,:=,0,vf,:=,r"
      ++ toString d ++ ",0x80,&,!,!,nf,:=,nf,sf,:=" }, false)

/-- `INST_HANDLER(fmul)` — FMUL Rd, Rr. -/
def inst_fmul (_cpu : CPU_MODEL) (buf : List Nat) (len : Nat) (op : RzOp) : RzOp × Bool :=
  if len < 1 then (op, false) else
  let d := ((buf.getD 0 0 >>> 4) &&& 0x7) + 16
  let r := (buf.getD 0 0 &&& 0x7) + 16
  ({ op with esil := op.esil
      ++ "8,"
      ++ "0xffff,1,r" ++ toString r ++ ",r" ++ toString d
      ++ ",*,<<,&,DUP,r0,=,>>,r1,=,"
      ++ "8,r1,<<,r0,|,DUP,0x8000,&,!,!,cf,:=,"
      ++ "!,zf,:=" }, false)

/-- `INST_HANDLER(fmuls)` — FMULS Rd, Rr. -/
def inst_fmuls (_cpu : CPU_MODEL) (buf : List Nat) (len : Nat) (op : RzOp) : RzOp × Bool :=
  if len < 1 then (op, false) else
  let d := ((buf.getD 0 0 >>> 4) &&& 0x7) + 16
  let r := (buf.getD 0 0 &&& 0x7) + 16
  ({ op with esil := op.esil
      ++ "8,1,"
      ++ "r" ++ toString d ++ ",DUP,0x80,&,?\x7b,0xff00,|,\x7d,"
      ++ "r" ++ toString r ++ ",DUP,0x80,&,?\x7b,0xff00,|,\x7d,"
      ++ "*,<<,DUP,r0,=,>>,r1,=,"
      ++ "8,r1,<<,r0,|,DUP,0x8000,&,!,!,cf,:=,"
      ++ "!,zf,:=" }, false)

/-- `INST_HANDLER(fmulsu)` — FMULSU Rd, Rr. -/
def inst_fmulsu (_cpu : CPU_MODEL) (buf : List Nat) (len : Nat) (op : RzOp) : RzOp × Bool :=
  if len < 1 then (op, false) else
  let d := ((buf.getD 0 0 >>> 4) &&& 0x7) + 16
  let r := (buf.getD 0 0 &&& 0x7) + 16
  ({ op with esil := op.esil
      ++ "8,1,"
      ++ "r" ++ toString d ++ ",DUP,0x80,&,?\x7b,0xff00,|,\x7d,"
      ++ "r" ++ toString r ++ ",*,<<,DUP,r0,=,>>,r1,=,"
      ++ "8,r1,<<,r0,|,DUP,0x8000,&,!,!,cf,:=,"
      ++ "!,zf,:=" }, false)

/-- `INST_HANDLER(in)` — IN Rd, A. -/
def inst_in (cpu : CPU_MODEL) (buf : List Nat) (len : Nat) (op : RzOp) : RzOp × Bool :=
  if len < 2 then (op, false) else
  let r := ((buf.getD 0 0 >>> 4) &&& 0x0f) ||| ((buf.getD 1 0 &&& 0x01) <<< 4)
  let a := (buf.getD 0 0 &&& 0x0f) ||| ((buf.getD 1 0 &&& 0x6) <<< 3)
  let io_src := generic_io_dest a false cpu
  let op := { op with type2 := 0, val := a, mmio_address := a, family := .io }
  ({ op with esil := op.esil ++ io_src ++ ",r" ++ toString r ++ ",=," }, false)

/-- `INST_HANDLER(inc)` — INC Rd. -/
def inst_inc (_cpu : CPU_MODEL) (buf : List Nat) (len : Nat) (op : RzOp) : RzOp × Bool :=
  if len < 2 then (op, false) else
  let d := ((buf.getD 0 0 >>> 4) &&& 0xf) ||| ((buf.getD 1 0 &&& 0x1) <<< 4)
  ({ op with esil := op.esil
      ++ "1,r" ++ toString d ++ ",+=,"
      ++ "7,$o,vf,:=,"
      ++ "r" ++ toString d ++ ",0x80,&,!,!,nf,:=,"
      ++ "$z,zf,:=,"
      ++ "vf,nf,^,sf,:=," }, false)

/-- `INST_HANDLER(jmp)` — JMP k. -/
def inst_jmp (_cpu : CPU_MODEL) (buf : List Nat) (len : Nat) (op : RzOp) : RzOp × Bool :=
  if len < 4 then (op, false) else
  let jump := (buf.getD 2 0 <<< 1) ||| (buf.getD 3 0 <<< 9)
    ||| ((buf.getD 1 0 &&& 0x01) <<< 23) ||| ((buf.getD 0 0 &&& 0x01) <<< 17)
    ||| ((buf.getD 0 0 &&& 0xf0) <<< 14)
  ({ op with
      jump := jump
      cycles := 3
      esil := op.esil ++ toString jump ++ ",pc,=," }, false)

/-- `INST_HANDLER(lac)` — LAC Z, Rd. -/
def inst_lac (_cpu : CPU_MODEL) (buf : List Nat) (len : Nat) (op : RzOp) : RzOp × Bool :=
  if len < 2 then (op, false) else
  let d := ((buf.getD 0 0 >>> 4) &&& 0xf) ||| ((buf.getD 1 0 &&& 0x1) <<< 4)
  ({ op with esil := op.esil
      ++ generic_ld_st "ram" (some 'z') true 0 0 false
      ++ "r" ++ toString d ++ ",0xff,^,&,"
      ++ "DUP,r" ++ toString d ++ ",=,"
      ++ generic_ld_st "ram" (some 'z') true 0 0 true }, false)

/-- `INST_HANDLER(las)` — LAS Z, Rd. -/
def inst_las (_cpu : CPU_MODEL) (buf : List Nat) (len : Nat) (op : RzOp) : RzOp × Bool :=
  if len < 2 then (op, false) else
  let d := ((buf.getD 0 0 >>> 4) &&& 0xf) ||| ((buf.getD 1 0 &&& 0x1) <<< 4)
  ({ op with esil := op.esil
      ++ generic_ld_st "ram" (some 'z') true 0 0 false
      ++ "r" ++ toString d ++ ",|,"
      ++ "DUP,r" ++ toString d ++ ",=,"
      ++ generic_ld_st "ram" (some 'z') true 0 0 true }, false)

/-- `INST_HANDLER(lat)` — LAT Z, Rd. -/
def inst_lat (_cpu : CPU_MODEL) (buf : List Nat) (len : Nat) (op : RzOp) : RzOp × Bool :=
  if len < 2 then (op, false) else
  let d := ((buf.getD 0 0 >>> 4) &&& 0xf) ||| ((buf.getD 1 0 &&& 0x1) <<< 4)
  ({ op with esil := op.esil
      ++ generic_ld_st "ram" (some 'z') true 0 0 false
      ++ "r" ++ toString d ++ ",^,"
      ++ "DUP,r" ++ toString d ++ ",=,"
      ++ generic_ld_st "ram" (some 'z') true 0 0 true }, false)

/-- `INST_HANDLER(ld)` — LD Rd, X / X+ / -X. -/
def inst_ld (cpu : CPU_MODEL) (buf : List Nat) (len : Nat) (op : RzOp) : RzOp × Bool :=
  if len < 2 then (op, false) else
  let prepostdec : Int :=
    if (buf.getD 0 0 &&& 0xf) == 0xe then -1
    else if (buf.getD 0 0 &&& 0xf) == 0xd then 1
    else 0
  let ldst := generic_ld_st "ram" (some 'x') false prepostdec 0 false
  let dst := "r" ++ toString (((buf.getD 1 0 &&& 1) <<< 4) ||| ((buf.getD 0 0 >>> 4) &&& 0xf)) ++ ",=,"
  let op := { op with esil := op.esil ++ ldst ++ dst }
  let cycles : Int :=
    if (buf.getD 0 0 &&& 0x3) == 0 then 2
    else if (buf.getD 0 0 &&& 0x3) == 1 then 2
    else 3
  let cycles := if str_beginsWith cpu.model "ATxmega" && cycles > 1 then cycles - 1
    else cycles
  ({ op with cycles := cycles }, false)

/-- `INST_HANDLER(ldd)` — LD Rd, Y/Z with increment/decrement/offset forms. -/
def inst_ldd (cpu : CPU_MODEL) (buf : List Nat) (len : Nat) (op : RzOp) : RzOp × Bool :=
  if len < 2 then (op, false) else
  let offset := (buf.getD 1 0 &&& 0x20) ||| ((buf.getD 1 0 &&& 0xc) <<< 1)
    ||| (buf.getD 0 0 &&& 0x7)
  let inc : Int :=
    if (buf.getD 1 0 &&& 0x10) == 0 then 0
    else if buf.getD 0 0 &&& 0x1 != 0 then 1
    else -1
  let ireg := if buf.getD 0 0 &&& 0x8 != 0 then 'y' else 'z'
  let off := if (buf.getD 1 0 &&& 0x10) == 0 then offset else 0
  let ldst := generic_ld_st "ram" (some ireg) false inc off false
  let dst := "r" ++ toString (((buf.getD 1 0 &&& 1) <<< 4) ||| ((buf.getD 0 0 >>> 4) &&& 0xf)) ++ ",=,"
  let op := { op with esil := op.esil ++ ldst ++ dst }
  let cycles : Int :=
    if (buf.getD 1 0 &&& 0x10) == 0 then (if offset == 0 then 1 else 3)
    else if (buf.getD 0 0 &&& 0x3) == 0 then 1
    else if (buf.getD 0 0 &&& 0x3) == 1 then 2
    else 3
  let cycles := if str_beginsWith cpu.model "ATxmega" && cycles > 1 then cycles - 1
    else cycles
  ({ op with cycles := cycles }, false)

/-- `INST_HANDLER(ldi)` — LDI Rd, K. -/
def inst_ldi (_cpu : CPU_MODEL) (buf : List Nat) (len : Nat) (op : RzOp) : RzOp × Bool :=
  if len < 2 then (op, false) else
  let k := (buf.getD 0 0 &&& 0xf) + ((buf.getD 1 0 &&& 0xf) <<< 4)
  let d := ((buf.getD 0 0 >>> 4) &&& 0xf) + 16
  ({ op with
      val := k
      esil := op.esil ++ "0x" ++ hexStr k ++ ",r" ++ toString d ++ ",=," }, false)

/-- `INST_HANDLER(lds)` — LDS Rd, k. -/
def inst_lds (_cpu : CPU_MODEL) (buf : List Nat) (len : Nat) (op : RzOp) : RzOp × Bool :=
  if len < 4 then (op, false) else
  let d := ((buf.getD 0 0 >>> 4) &&& 0xf) ||| ((buf.getD 1 0 &&& 0x1) <<< 4)
  let k := (buf.getD 3 0 <<< 8) ||| buf.getD 2 0
  ({ op with
      ptr := k
      esil := op.esil ++ generic_ld_st "ram" none true 0 k false
        ++ "r" ++ toString d ++ ",=," }, false)

/-- `INST_HANDLER(sts)` — STS k, Rr. -/
def inst_sts (_cpu : CPU_MODEL) (buf : List Nat) (len : Nat) (op : RzOp) : RzOp × Bool :=
  if len < 4 then (op, false) else
  let r := ((buf.getD 0 0 >>> 4) &&& 0xf) ||| ((buf.getD 1 0 &&& 0x1) <<< 4)
  let k := (buf.getD 3 0 <<< 8) ||| buf.getD 2 0
  ({ op with
      ptr := k
      cycles := 2
      esil := op.esil ++ "r" ++ toString r ++ ","
        ++ generic_ld_st "ram" none true 0 k true }, false)

/-- `INST_HANDLER(lpm)` — LPM / LPM Rd, Z / LPM Rd, Z+. -/
def inst_lpm (_cpu : CPU_MODEL) (buf : List Nat) (len : Nat) (op : RzOp) : RzOp × Bool :=
  if len < 2 then (op, false) else
  let ins := (buf.getD 1 0 <<< 8) ||| buf.getD 0 0
  let inc : Int := if (ins &&& 0xfe0f) == 0x9005 then 1 else 0
  let ldst := generic_ld_st "prog" (some 'z') true inc 0 false
  let d := if ins == 0x95c8 then 0
    else ((buf.getD 0 0 >>> 4) &&& 0xf) ||| ((buf.getD 1 0 &&& 0x1) <<< 4)
  ({ op with esil := op.esil ++ ldst ++ "r" ++ toString d ++ ",=," }, false)

/-- `INST_HANDLER(lsr)` — LSR Rd. -/
def inst_lsr (_cpu : CPU_MODEL) (buf : List Nat) (len : Nat) (op : RzOp) : RzOp × Bool :=
  if len < 2 then (op, false) else
  let d := ((buf.getD 0 0 >>> 4) &&& 0xf) ||| ((buf.getD 1 0 &&& 1) <<< 4)
  ({ op with esil := op.esil
      ++ "r" ++ toString d ++ ",0x1,&,cf,:=,"
      ++ "1,r" ++ toString d ++ ",>>=,"
      ++ "$z,zf,:=,"
      ++ "0,nf,:=,"
      ++ "cf,vf,:=,"
      ++ "cf,sf,:=," }, false)

/-- `INST_HANDLER(mov)` — MOV Rd, Rr. -/
def inst_mov (_cpu : CPU_MODEL) (buf : List Nat) (len : Nat) (op : RzOp) : RzOp × Bool :=
  if len < 2 then (op, false) else
  let d := ((buf.getD 1 0 <<< 4) &&& 0x10) ||| ((buf.getD 0 0 >>> 4) &&& 0x0f)
  let r := ((buf.getD 1 0 <<< 3) &&& 0x10) ||| (buf.getD 0 0 &&& 0x0f)
  ({ op with esil := op.esil
      ++ "r" ++ toString r ++ ",r" ++ toString d ++ ",=," }, false)

/-- `INST_HANDLER(movw)` — MOVW Rd+1:Rd, Rr+1:Rr. -/
def inst_movw (_cpu : CPU_MODEL) (buf : List Nat) (len : Nat) (op : RzOp) : RzOp × Bool :=
  if len < 1 then (op, false) else
  let d := (buf.getD 0 0 &&& 0xf0) >>> 3
  let r := (buf.getD 0 0 &&& 0x0f) <<< 1
  ({ op with esil := op.esil
      ++ "r" ++ toString r ++ ",r" ++ toString d ++ ",=,r" ++ toString (r + 1)
      ++ ",r" ++ toString (d + 1) ++ ",=," }, false)

/-- `INST_HANDLER(mul)` — MUL Rd, Rr. -/
def inst_mul (_cpu : CPU_MODEL) (buf : List Nat) (len : Nat) (op : RzOp) : RzOp × Bool :=
  if len < 2 then (op, false) else
  let d := ((buf.getD 1 0 <<< 4) &&& 0x10) ||| ((buf.getD 0 0 >>> 4) &&& 0x0f)
  let r := ((buf.getD 1 0 <<< 3) &&& 0x10) ||| (buf.getD 0 0 &&& 0x0f)
  ({ op with esil := op.esil
      ++ "8,r" ++ toString r ++ ",r" ++ toString d ++ ",*,DUP,r0,=,>>,r1,=,"
      ++ "8,r1,<<,r0,|,DUP,0x8000,&,!,!,cf,:=,"
      ++ "!,zf,:=" }, false)

/-- `INST_HANDLER(muls)` — MULS Rd, Rr. -/
def inst_muls (_cpu : CPU_MODEL) (buf : List Nat) (len : Nat) (op : RzOp) : RzOp × Bool :=
  if len < 1 then (op, false) else
  let d := ((buf.getD 0 0 >>> 4) &&& 0x0f) + 16
  let r := (buf.getD 0 0 &&& 0x0f) + 16
  ({ op with esil := op.esil
      ++ "8,"
      ++ "r" ++ toString d ++ ",DUP,0x80,&,?\x7b,0xff00,|,\x7d,"
      ++ "r" ++ toString r ++ ",DUP,0x80,&,?\x7b,0xff00,|,\x7d,"
      ++ "*,DUP,r0,=,>>,r1,=,"
      ++ "8,r1,<<,r0,|,DUP,0x8000,&,!,!,cf,:=,"
      ++ "!,zf,:=" }, false)

/-- `INST_HANDLER(mulsu)` — MULSU Rd, Rr. -/
def inst_mulsu (_cpu : CPU_MODEL) (buf : List Nat) (len : Nat) (op : RzOp) : RzOp × Bool :=
  if len < 1 then (op, false) else
  let d := ((buf.getD 0 0 >>> 4) &&& 0x07) + 16
  let r := (buf.getD 0 0 &&& 0x07) + 16
  ({ op with esil := op.esil
      ++ "8,"
      ++ "r" ++ toString d ++ ",DUP,0x80,&,?\x7b,0xff00,|,\x7d,"
      ++ "r" ++ toString r ++ ",*,DUP,r0,=,>>,r1,=,"
      ++ "8,r1,<<,r0,|,DUP,0x8000,&,!,!,cf,:=,"
      ++ "!,zf,:=" }, false)

/-- `INST_HANDLER(neg)` — NEG Rd. -/
def inst_neg (_cpu : CPU_MODEL) (buf : List Nat) (len : Nat) (op : RzOp) : RzOp × Bool :=
  if len < 2 then (op, false) else
  let d := ((buf.getD 0 0 >>> 4) &&& 0xf) ||| ((buf.getD 1 0 &&& 1) <<< 4)
  ({ op with esil := op.esil
      ++ "r" ++ toString d ++ ",0x00,-,0xff,&,"
      ++ "DUP,r" ++ toString d ++ ",0xff,^,|,0x08,&,!,!,hf,=,"
      ++ "DUP,0x80,-,!,vf,=,"
      ++ "DUP,0x80,&,!,!,nf,=,"
      ++ "DUP,!,zf,=,"
      ++ "DUP,!,!,cf,=,"
      ++ "vf,nf,^,sf,=,"
      ++ "r" ++ toString d ++ ",=," }, false)

/-- `INST_HANDLER(nop)` — NOP. -/
def inst_nop (_cpu : CPU_MODEL) (_buf : List Nat) (_len : Nat) (op : RzOp) : RzOp × Bool :=
  ({ op with esil := op.esil ++ ",," }, false)

/-- `INST_HANDLER(or)` — OR Rd, Rr. -/
def inst_or (_cpu : CPU_MODEL) (buf : List Nat) (len : Nat) (op : RzOp) : RzOp × Bool :=
  if len < 2 then (op, false) else
  let d := ((buf.getD 0 0 >>> 4) &&& 0xf) ||| ((buf.getD 1 0 &&& 1) <<< 4)
  let r := (buf.getD 0 0 &&& 0xf) ||| ((buf.getD 1 0 &&& 2) <<< 3)
  ({ op with esil := op.esil
      ++ "r" ++ toString r ++ ",r" ++ toString d ++ ",|=,"
      ++ "$z,zf,:=,"
      ++ "r" ++ toString d ++ ",&,!,!,nf,:=,"
      ++ "0,vf,:=,"
      ++ "nf,sf,:=" }, false)

/-- `INST_HANDLER(ori)` — ORI Rd, K (SBR Rd, K). -/
def inst_ori (_cpu : CPU_MODEL) (buf : List Nat) (len : Nat) (op : RzOp) : RzOp × Bool :=
  if len < 2 then (op, false) else
  let d := ((buf.getD 0 0 >>> 4) &&& 0xf) + 16
  let k := (buf.getD 0 0 &&& 0xf) ||| ((buf.getD 1 0 &&& 0xf) <<< 4)
  ({ op with
      val := k
      esil := op.esil
        ++ toString k ++ ",r" ++ toString d ++ ",|=,"
        ++ "$z,zf,:=,"
        ++ "r" ++ toString d ++ ",0x80,&,!,!,nf,:=,"
        ++ "0,vf,:=,"
        ++ "nf,sf,:=" }, false)

/-- `INST_HANDLER(out)` — OUT A, Rr. -/
def inst_out (cpu : CPU_MODEL) (buf : List Nat) (len : Nat) (op : RzOp) : RzOp × Bool :=
  if len < 2 then (op, false) else
  let r := ((buf.getD 0 0 >>> 4) &&& 0x0f) ||| ((buf.getD 1 0 &&& 0x01) <<< 4)
  let a := (buf.getD 0 0 &&& 0x0f) ||| ((buf.getD 1 0 &&& 0x6) <<< 3)
  let io_dst := generic_io_dest a true cpu
  let op := { op with type2 := 1, val := a, mmio_address := a, family := .io }
  ({ op with esil := op.esil ++ "r" ++ toString r ++ "," ++ io_dst ++ "," }, false)

/-- `INST_HANDLER(pop)` — POP Rd. -/
def inst_pop (_cpu : CPU_MODEL) (buf : List Nat) (len : Nat) (op : RzOp) : RzOp × Bool :=
  if len < 2 then (op, false) else
  let d := ((buf.getD 1 0 &&& 0x1) <<< 4) ||| ((buf.getD 0 0 >>> 4) &&& 0xf)
  ({ op with esil := op.esil ++ generic_pop 1
      ++ "r" ++ toString d ++ ",=," }, false)

/-- `INST_HANDLER(push)` — PUSH Rr. -/
def inst_push (cpu : CPU_MODEL) (buf : List Nat) (len : Nat) (op : RzOp) : RzOp × Bool :=
  if len < 2 then (op, false) else
  let r := ((buf.getD 1 0 &&& 0x1) <<< 4) ||| ((buf.getD 0 0 >>> 4) &&& 0xf)
  ({ op with
      cycles := if str_beginsWith cpu.model "ATxmega" then 1 else 2
      esil := op.esil ++ "r" ++ toString r ++ "," ++ generic_push 1 }, false)

/-- `INST_HANDLER(rcall)` — RCALL k. -/
def inst_rcall (cpu : CPU_MODEL) (buf : List Nat) (len : Nat) (op : RzOp) : RzOp × Bool :=
  if len < 2 then (op, false) else
  let base := (((buf.getD 1 0 &&& 0xf) <<< 8) ||| buf.getD 0 0) <<< 1
  let disp : Int :=
    (if buf.getD 1 0 &&& 0x8 != 0 then int32ofU64 (base ||| 0xffffe000)
     else (base : Int)) + 2
  let jump := u64ofInt ((op.addr : Int) + disp)
  let op := { op with
    jump := jump
    fail := u64 (op.addr + op.size)
    esil := op.esil ++ "pc," ++ generic_push (CPU_PC_SIZE cpu)
      ++ toString jump ++ ",pc,=," }
  let cycles : Int :=
    if str_beginsWith cpu.model "ATtiny" then 4
    else
      let c : Int := if cpu.pc ≤ 16 then 3 else 4
      if str_beginsWith cpu.model "ATxmega" then c - 1 else c
  ({ op with cycles := cycles }, false)

/-- `INST_HANDLER(ret)` — RET. -/
def inst_ret (cpu : CPU_MODEL) (_buf : List Nat) (_len : Nat) (op : RzOp) : RzOp × Bool :=
  let op := { op with
    eob := true
    esil := op.esil ++ generic_pop (CPU_PC_SIZE cpu) ++ "pc,=," }
  ({ op with cycles := if CPU_PC_SIZE cpu > 2 then op.cycles + 1 else op.cycles },
   false)

/-- `INST_HANDLER(reti)` — RETI: a standard RET plus re-enabling
interrupts. -/
def inst_reti (cpu : CPU_MODEL) (buf : List Nat) (len : Nat) (op : RzOp) : RzOp × Bool :=
  let op := { op with family := .priv }
  let pr := inst_ret cpu buf len op
  ({ pr.1 with esil := pr.1.esil ++ "1,if,=," }, pr.2)

/-- `INST_HANDLER(rjmp)` — RJMP k. -/
def inst_rjmp (_cpu : CPU_MODEL) (buf : List Nat) (_len : Nat) (op : RzOp) : RzOp × Bool :=
  let base := ((buf.getD 1 0 &&& 0xf) <<< 9) ||| (buf.getD 0 0 <<< 1)
  let disp : Int :=
    (if buf.getD 1 0 &&& 0x8 != 0 then int32ofU64 (base ||| 0xffffe000)
     else (base : Int)) + 2
  let jump := u64ofInt ((op.addr : Int) + disp)
  ({ op with
      jump := jump
      esil := op.esil ++ toString jump ++ ",pc,=," }, false)

/-- `INST_HANDLER(ror)` — ROR Rd. -/
def inst_ror (_cpu : CPU_MODEL) (buf : List Nat) (_len : Nat) (op : RzOp) : RzOp × Bool :=
  let d := ((buf.getD 0 0 >>> 4) &&& 0x0f) ||| ((buf.getD 1 0 <<< 4) &&& 0x10)
  ({ op with esil := op.esil
      ++ "cf,nf,:=,"
      ++ "r" ++ toString d ++ ",0x1,&,"
      ++ "1,r" ++ toString d ++ ",>>,7,cf,<<,|,r" ++ toString d ++ ",=,cf,:=,"
      ++ "$z,zf,:=,"
      ++ "nf,cf,^,vf,:=,"
      ++ "vf,nf,^,sf,:=" }, false)

/-- `INST_HANDLER(sbc)` — SBC Rd, Rr. -/
def inst_sbc (_cpu : CPU_MODEL) (buf : List Nat) (len : Nat) (op : RzOp) : RzOp × Bool :=
  if len < 2 then (op, false) else
  let r := (buf.getD 0 0 &&& 0x0f) ||| ((buf.getD 1 0 &&& 0x2) <<< 3)
  let d := ((buf.getD 0 0 >>> 4) &&& 0xf) ||| ((buf.getD 1 0 &&& 0x1) <<< 4)
  ({ op with esil := op.esil
      ++ "cf,r" ++ toString r ++ ",+,r" ++ toString d ++ ",-=,"
      ++ "$z,zf,:=,"
      ++ "3,$b,hf,:=,"
      ++ "8,$b,cf,:=,"
      ++ "7,$o,vf,:=,"
      ++ "0x80,r" ++ toString d ++ ",&,!,!,nf,:=,"
      ++ "vf,nf,^,sf,:=" }, false)

/-- `INST_HANDLER(sbci)` — SBCI Rd, k. -/
def inst_sbci (_cpu : CPU_MODEL) (buf : List Nat) (len : Nat) (op : RzOp) : RzOp × Bool :=
  if len < 2 then (op, false) else
  let d := ((buf.getD 0 0 >>> 4) &&& 0xf) + 16
  let k := ((buf.getD 1 0 &&& 0xf) <<< 4) ||| (buf.getD 0 0 &&& 0xf)
  ({ op with
      val := k
      esil := op.esil
        ++ "cf," ++ toString k ++ ",+,r" ++ toString d ++ ",-=,"
        ++ "$z,zf,:=,"
        ++ "3,$b,hf,:=,"
        ++ "8,$b,cf,:=,"
        ++ "7,$o,vf,:=,"
        ++ "0x80,r" ++ toString d ++ ",&,!,!,nf,:=,"
        ++ "vf,nf,^,sf,:=" }, false)

/-- `INST_HANDLER(sub)` — SUB Rd, Rr. -/
def inst_sub (_cpu : CPU_MODEL) (buf : List Nat) (len : Nat) (op : RzOp) : RzOp × Bool :=
  if len < 2 then (op, false) else
  let d := ((buf.getD 0 0 >>> 4) &&& 0xf) ||| ((buf.getD 1 0 &&& 1) <<< 4)
  let r := (buf.getD 0 0 &&& 0xf) ||| ((buf.getD 1 0 &&& 2) <<< 3)
  ({ op with esil := op.esil
      ++ "r" ++ toString r ++ ",r" ++ toString d ++ ",-=,"
      ++ "$z,zf,:=,"
      ++ "3,$b,hf,:=,"
      ++ "8,$b,cf,:=,"
      ++ "7,$o,vf,:=,"
      ++ "0x80,r" ++ toString d ++ ",&,!,!,nf,:=,"
      ++ "vf,nf,^,sf,:=" }, false)

/-- `INST_HANDLER(subi)` — SUBI Rd, k. -/
def inst_subi (_cpu : CPU_MODEL) (buf : List Nat) (len : Nat) (op : RzOp) : RzOp × Bool :=
  if len < 2 then (op, false) else
  let d := ((buf.getD 0 0 >>> 4) &&& 0xf) + 16
  let k := ((buf.getD 1 0 &&& 0xf) <<< 4) ||| (buf.getD 0 0 &&& 0xf)
  ({ op with
      val := k
      esil := op.esil
        ++ toString k ++ ",r" ++ toString d ++ ",-=,"
        ++ "$z,zf,:=,"
        ++ "3,$b,hf,:=,"
        ++ "8,$b,cf,:=,"
        ++ "7,$o,vf,:=,"
        ++ "0x80,r" ++ toString d ++ ",&,!,!,nf,:=,"
        ++ "vf,nf,^,sf,:=" }, false)

/-- `INST_HANDLER(sbi)` — SBI A, b. -/
def inst_sbi (cpu : CPU_MODEL) (buf : List Nat) (len : Nat) (op : RzOp) : RzOp × Bool :=
  if len < 1 then (op, false) else
  let a := (buf.getD 0 0 >>> 3) &&& 0x1f
  let b := buf.getD 0 0 &&& 0x07
  let op := { op with type2 := 1, val := a, family := .io }
  ({ op with esil := op.esil
      ++ "0xff," ++ toString b ++ ",1,<<,|," ++ generic_io_dest a false cpu ++ ",&,"
      ++ generic_io_dest a true cpu ++ "," }, false)

/-- `INST_HANDLER(sbiw)` — SBIW Rd+1:Rd, K. -/
def inst_sbiw (_cpu : CPU_MODEL) (buf : List Nat) (len : Nat) (op : RzOp) : RzOp × Bool :=
  if len < 1 then (op, false) else
  let d := ((buf.getD 0 0 &&& 0x30) >>> 3) + 24
  let k := (buf.getD 0 0 &&& 0xf) ||| ((buf.getD 0 0 >>> 2) &&& 0x30)
  ({ op with
      val := k
      esil := op.esil
        ++ "7,r" ++ toString (d + 1) ++ ",>>,"
        ++ "8," ++ toString k ++ ",8,r" ++ toString (d + 1) ++ ",<<,r" ++ toString d
        ++ ",|,-,DUP,r" ++ toString d ++ ",=,>>,r" ++ toString (d + 1) ++ ",=,"
        ++ "$z,zf,:=,"
        ++ "DUP,!,7,r" ++ toString (d + 1) ++ ",>>,&,cf,:=,"
        ++ "r" ++ toString (d + 1) ++ ",0x80,&,!,!,nf,:=,"
        ++ "7,r" ++ toString (d + 1) ++ ",>>,!,&,vf,:=,"
        ++ "vf,nf,^,sf,:=" }, false)

/-- `INST_HANDLER(sleep)` — SLEEP. -/
def inst_sleep (_cpu : CPU_MODEL) (_buf : List Nat) (_len : Nat) (op : RzOp) : RzOp × Bool :=
  ({ op with esil := op.esil ++ "BREAK" }, false)

/-- `INST_HANDLER(st)` — ST X / X+ / -X, Rr. -/
def inst_st (_cpu : CPU_MODEL) (buf : List Nat) (len : Nat) (op : RzOp) : RzOp × Bool :=
  if len < 2 then (op, false) else
  let prepostdec : Int :=
    if (buf.getD 0 0 &&& 0xf) == 0xe then -1
    else if (buf.getD 0 0 &&& 0xf) == 0xd then 1
    else 0
  ({ op with esil := op.esil
      ++ "r" ++ toString (((buf.getD 1 0 &&& 1) <<< 4) ||| ((buf.getD 0 0 >>> 4) &&& 0xf))
      ++ ","
      ++ generic_ld_st "ram" (some 'x') false prepostdec 0 true }, false)

/-- `INST_HANDLER(std)` — ST Y/Z forms, Rr. -/
def inst_std (_cpu : CPU_MODEL) (buf : List Nat) (len : Nat) (op : RzOp) : RzOp × Bool :=
  if len < 2 then (op, false) else
  let inc : Int :=
    if (buf.getD 1 0 &&& 0x10) == 0 then 0
    else if buf.getD 0 0 &&& 0x1 != 0 then 1
    else -1
  let ireg := if buf.getD 0 0 &&& 0x8 != 0 then 'y' else 'z'
  let off := if (buf.getD 1 0 &&& 0x10) == 0 then
      (buf.getD 1 0 &&& 0x20) ||| ((buf.getD 1 0 &&& 0xc) <<< 1) ||| (buf.getD 0 0 &&& 0x7)
    else 0
  let src := "r" ++ toString (((buf.getD 1 0 &&& 1) <<< 4) ||| ((buf.getD 0 0 >>> 4) &&& 0xf)) ++ ","
  ({ op with esil := op.esil ++ src ++ generic_ld_st "ram" (some ireg) false inc off true },
   false)

/-- `INST_HANDLER(swap)` — SWAP Rd. -/
def inst_swap (_cpu : CPU_MODEL) (buf : List Nat) (len : Nat) (op : RzOp) : RzOp × Bool :=
  if len < 2 then (op, false) else
  let d := ((buf.getD 1 0 &&& 0x1) <<< 4) ||| ((buf.getD 0 0 >>> 4) &&& 0xf)
  ({ op with esil := op.esil
      ++ "4,r" ++ toString d ++ ",>>,0x0f,&,"
      ++ "4,r" ++ toString d ++ ",<<,0xf0,&,"
      ++ "|,"
      ++ "r" ++ toString d ++ ",=," }, false)

/-- `INST_HANDLER(ijmp)` — IJMP: reads the live `z` register to compute
`op->jump` at decode time. -/
def inst_ijmp (regs : EsilRegs) (_cpu : CPU_MODEL) (_buf : List Nat) (_len : Nat)
    (op : RzOp) : RzOp × Bool :=
  ({ op with
      jump := u64 (regs.z <<< 1)
      cycles := 2
      esil := op.esil ++ "1,z,<<,pc,=," }, false)

/-- `INST_HANDLER(eijmp)` — EIJMP: reads the live `z` and `eind`
registers. -/
def inst_eijmp (regs : EsilRegs) (_cpu : CPU_MODEL) (_buf : List Nat) (_len : Nat)
    (op : RzOp) : RzOp × Bool :=
  ({ op with
      jump := u64 (u64 (u64 (regs.eind <<< 16) + regs.z) <<< 1)
      cycles := 2
      esil := op.esil ++ "1,z,16,eind,<<,+,<<,pc,=," }, false)

/-- `INST_HANDLER(icall)` — ICALL: push the return address, then a standard
IJMP, then the cycle fix-up. -/
def inst_icall (regs : EsilRegs) (cpu : CPU_MODEL) (buf : List Nat) (len : Nat)
    (op : RzOp) : RzOp × Bool :=
  let op := { op with esil := op.esil ++ "pc," ++ generic_push (CPU_PC_SIZE cpu) }
  let pr := inst_ijmp regs cpu buf len op
  ({ pr.1 with
      cycles := if str_beginsWith cpu.model "ATxmega" then pr.1.cycles - 1
        else pr.1.cycles }, pr.2)

/-- `INST_HANDLER(eicall)` — EICALL: push the return address, then a
standard EIJMP, then the cycle fix-up. -/
def inst_eicall (regs : EsilRegs) (cpu : CPU_MODEL) (buf : List Nat) (len : Nat)
    (op : RzOp) : RzOp × Bool :=
  let op := { op with esil := op.esil ++ "pc," ++ generic_push (CPU_PC_SIZE cpu) }
  let pr := inst_eijmp regs cpu buf len op
  ({ pr.1 with
      cycles := if str_beginsWith cpu.model "ATxmega" then 3 else 4 }, pr.2)

/-- `INST_HANDLER(spm)` — SPM Z+: reads the live `spmcsr` register to decide
which custom intrinsic call to emit. -/
def inst_spm (regs : EsilRegs) (_cpu : CPU_MODEL) (_buf : List Nat) (_len : Nat)
    (op : RzOp) : RzOp × Bool :=
  let op := { op with esil := op.esil ++ "0x7c,spmcsr,&=," }
  let v := regs.spmcsr &&& 0x7f
  let op := { op with esil := op.esil
    ++ (if v == 0x03 then "16,rampz,<<,z,+," ++ "SPM_PAGE_ERASE,"
        else if v == 0x01 then "r1,r0," ++ "z," ++ "SPM_PAGE_FILL,"
        else if v == 0x05 then "16,rampz,<<,z,+," ++ "SPM_PAGE_WRITE,"
        else "") }
  ({ op with cycles := 1 }, false)

/-- Tags identifying the handler functions referenced by the opcode table
(the C function pointers). -/
inductive HTag where
  | i_adc | i_add | i_adiw | i_and | i_andi | i_asr | i_bclr | i_bld | i_brbx
  | i_break | i_bset | i_bst | i_call | i_cbi | i_com | i_cp | i_cpc | i_cpi
  | i_cpse | i_dec | i_des | i_eijmp | i_eicall | i_elpm | i_eor | i_fmul
  | i_fmuls | i_fmulsu | i_ijmp | i_icall | i_in | i_inc | i_jmp | i_lac
  | i_las | i_lat | i_ld | i_ldd | i_ldi | i_lds | i_sts | i_lpm | i_lsr
  | i_mov | i_movw | i_mul | i_muls | i_mulsu | i_neg | i_nop | i_or | i_ori
  | i_out | i_pop | i_push | i_rcall | i_ret | i_reti | i_rjmp | i_ror
  | i_sbc | i_sbci | i_sub | i_subi | i_sbi | i_sbix | i_sbiw | i_sbrx
  | i_sleep | i_spm | i_st | i_std | i_swap
deriving DecidableEq, Repr

/-- `OPCODE_DESC`: name, mask, selector, handler, default cycles, default
size, op type. -/
structure ODesc where
  name : String
  mask : Nat
  selector : Nat
  handler : HTag
  cycles : Int
  size : Nat
  type : OpType
deriving DecidableEq, Repr

/-- Result of one `avr_op_analyze` call: the returned `OPCODE_DESC *`
(the matched descriptor, NULL on invalid), the written `RzAnalysisOp`, the
opcode table after any `opcode_desc->cycles = 2` write, and — as a ghost
measurement for the recursion claims — the depth of the call tree of
`avr_op_analyze` activations rooted at this call (1 when no lookahead
recursion happens). -/
structure DecRes where
  desc : Option ODesc
  op : RzOp
  table : List ODesc
  depth : Nat

/-- Shape of a nested decode call as seen by the compare-and-skip handlers:
table, live registers, cpu, address, buffer, length, initial op. -/
def NDec : Type :=
  List ODesc → EsilRegs → CPU_MODEL → Nat → List Nat → Nat → RzOp → DecRes

/-- Result of running one handler: the op, the fail flag (`*fail`; no
handler in this file ever sets it), the table state after any nested
decode, and the nested decode's call depth (0 when no nested call). -/
structure HRes where
  op : RzOp
  fail : Bool
  table : List ODesc
  depth : Nat

/-- Wrapping of a handler without lookahead into `HRes`: the table is
untouched and no nested decode happens. -/
def HRes.ofPure (table : List ODesc) (pr : RzOp × Bool) : HRes :=
  ⟨pr.1, pr.2, table, 0⟩

/-- `INST_HANDLER(cpse)` — CPSE Rd, Rr: decodes the next instruction with a
nested `avr_op_analyze` call to size the skip. -/
def inst_cpse (nested : NDec) (regs : EsilRegs) (cpu : CPU_MODEL)
    (table : List ODesc) (buf : List Nat) (len : Nat) (op : RzOp) : HRes :=
  if len < 2 then ⟨op, false, table, 0⟩ else
  let r := (buf.getD 0 0 &&& 0xf) ||| ((buf.getD 1 0 &&& 0x2) <<< 3)
  let d := ((buf.getD 0 0 >>> 4) &&& 0xf) ||| ((buf.getD 1 0 &&& 0x1) <<< 4)
  let res := nested table regs cpu (u64 (op.addr + op.size)) (buf.drop op.size)
    (len - op.size) {}
  let jump := u64 (op.addr + res.op.size + 2)
  let op := { op with jump := jump, fail := u64 (op.addr + 2), cycles := 1 }
  let guard := "r" ++ toString r ++ ",r" ++ toString d ++ ",^,!,"
    ++ "?\x7b," ++ toString jump ++ ",pc,=,\x7d,"
  let op := { op with esil := op.esil ++ guard }
  ⟨op, false, res.table, res.depth⟩

/-- `INST_HANDLER(sbix)` — SBIC A, b / SBIS A, b: nested decode for the
skip size, plus an I/O port read. -/
def inst_sbix (nested : NDec) (regs : EsilRegs) (cpu : CPU_MODEL)
    (table : List ODesc) (buf : List Nat) (len : Nat) (op : RzOp) : HRes :=
  if len < 2 then ⟨op, false, table, 0⟩ else
  let a := (buf.getD 0 0 >>> 3) &&& 0x1f
  let b := buf.getD 0 0 &&& 0x07
  let op := { op with type2 := 0, val := a, family := .io }
  let res := nested table regs cpu (u64 (op.addr + op.size)) (buf.drop op.size)
    (len - op.size) {}
  let jump := u64 (op.addr + res.op.size + 2)
  let op := { op with jump := jump, fail := u64 (op.addr + op.size), cycles := 1 }
  let io_port := generic_io_dest a false cpu
  let guard := toString b ++ ",1,<<," ++ io_port ++ ",&,"
    ++ (if (buf.getD 1 0 &&& 0xe) == 0xc then "!," else "!,!,")
    ++ "?\x7b," ++ toString jump ++ ",pc,=,\x7d,"
  let op := { op with esil := op.esil ++ guard }
  ⟨op, false, res.table, res.depth⟩

/-- `INST_HANDLER(sbrx)` — SBRC Rr, b / SBRS Rr, b: nested decode for the
skip size. -/
def inst_sbrx (nested : NDec) (regs : EsilRegs) (cpu : CPU_MODEL)
    (table : List ODesc) (buf : List Nat) (len : Nat) (op : RzOp) : HRes :=
  if len < 2 then ⟨op, false, table, 0⟩ else
  let b := buf.getD 0 0 &&& 0x7
  let r := ((buf.getD 0 0 >>> 4) &&& 0xf) ||| ((buf.getD 1 0 &&& 0x01) <<< 4)
  let res := nested table regs cpu (u64 (op.addr + op.size)) (buf.drop op.size)
    (len - op.size) {}
  let jump := u64 (op.addr + res.op.size + 2)
  let op := { op with jump := jump, fail := u64 (op.addr + 2), cycles := 1 }
  let guard := toString b ++ ",1,<<,r" ++ toString r ++ ",&,"
    ++ (if (buf.getD 1 0 &&& 0xe) == 0xc then "!," else "!,!,")
    ++ "?\x7b," ++ toString jump ++ ",pc,=,\x7d,"
  let op := { op with esil := op.esil ++ guard }
  ⟨op, false, res.table, res.depth⟩

/-- Dispatch from a handler tag to the handler function, mirroring the
function-pointer call `opcode_desc->handler(analysis, op, buf, len, &fail,
cpu)`.  Handlers without lookahead cannot touch the opcode table and have
nested depth 0. -/
def runHandler (nested : NDec) (tag : HTag) (regs : EsilRegs) (cpu : CPU_MODEL)
    (table : List ODesc) (buf : List Nat) (len : Nat) (op : RzOp) : HRes :=
  match tag with
  | .i_cpse => inst_cpse nested regs cpu table buf len op
  | .i_sbix => inst_sbix nested regs cpu table buf len op
  | .i_sbrx => inst_sbrx nested regs cpu table buf len op
  | .i_ijmp => .ofPure table (inst_ijmp regs cpu buf len op)
  | .i_eijmp => .ofPure table (inst_eijmp regs cpu buf len op)
  | .i_icall => .ofPure table (inst_icall regs cpu buf len op)
  | .i_eicall => .ofPure table (inst_eicall regs cpu buf len op)
  | .i_spm => .ofPure table (inst_spm regs cpu buf len op)
  | .i_adc => .ofPure table (inst_adc cpu buf len op)
  | .i_add => .ofPure table (inst_add cpu buf len op)
  | .i_adiw => .ofPure table (inst_adiw cpu buf len op)
  | .i_and => .ofPure table (inst_and cpu buf len op)
  | .i_andi => .ofPure table (inst_andi cpu buf len op)
  | .i_asr => .ofPure table (inst_asr cpu buf len op)
  | .i_bclr => .ofPure table (inst_bclr cpu buf len op)
  | .i_bld => .ofPure table (inst_bld cpu buf len op)
  | .i_brbx => .ofPure table (inst_brbx cpu buf len op)
  | .i_break => .ofPure table (inst_break cpu buf len op)
  | .i_bset => .ofPure table (inst_bset cpu buf len op)
  | .i_bst => .ofPure table (inst_bst cpu buf len op)
  | .i_call => .ofPure table (inst_call cpu buf len op)
  | .i_cbi => .ofPure table (inst_cbi cpu buf len op)
  | .i_com => .ofPure table (inst_com cpu buf len op)
  | .i_cp => .ofPure table (inst_cp cpu buf len op)
  | .i_cpc => .ofPure table (inst_cpc cpu buf len op)
  | .i_cpi => .ofPure table (inst_cpi cpu buf len op)
  | .i_dec => .ofPure table (inst_dec cpu buf len op)
  | .i_des => .ofPure table (inst_des cpu buf len op)
  | .i_elpm => .ofPure table (inst_elpm cpu buf len op)
  | .i_eor => .ofPure table (inst_eor cpu buf len op)
  | .i_fmul => .ofPure table (inst_fmul cpu buf len op)
  | .i_fmuls => .ofPure table (inst_fmuls cpu buf len op)
  | .i_fmulsu => .ofPure table (inst_fmulsu cpu buf len op)
  | .i_in => .ofPure table (inst_in cpu buf len op)
  | .i_inc => .ofPure table (inst_inc cpu buf len op)
  | .i_jmp => .ofPure table (inst_jmp cpu buf len op)
  | .i_lac => .ofPure table (inst_lac cpu buf len op)
  | .i_las => .ofPure table (inst_las cpu buf len op)
  | .i_lat => .ofPure table (inst_lat cpu buf len op)
  | .i_ld => .ofPure table (inst_ld cpu buf len op)
  | .i_ldd => .ofPure table (inst_ldd cpu buf len op)
  | .i_ldi => .ofPure table (inst_ldi cpu buf len op)
  | .i_lds => .ofPure table (inst_lds cpu buf len op)
  | .i_sts => .ofPure table (inst_sts cpu buf len op)
  | .i_lpm => .ofPure table (inst_lpm cpu buf len op)
  | .i_lsr => .ofPure table (inst_lsr cpu buf len op)
  | .i_mov => .ofPure table (inst_mov cpu buf len op)
  | .i_movw => .ofPure table (inst_movw cpu buf len op)
  | .i_mul => .ofPure table (inst_mul cpu buf len op)
  | .i_muls => .ofPure table (inst_muls cpu buf len op)
  | .i_mulsu => .ofPure table (inst_mulsu cpu buf len op)
  | .i_neg => .ofPure table (inst_neg cpu buf len op)
  | .i_nop => .ofPure table (inst_nop cpu buf len op)
  | .i_or => .ofPure table (inst_or cpu buf len op)
  | .i_ori => .ofPure table (inst_ori cpu buf len op)
  | .i_out => .ofPure table (inst_out cpu buf len op)
  | .i_pop => .ofPure table (inst_pop cpu buf len op)
  | .i_push => .ofPure table (inst_push cpu buf len op)
  | .i_rcall => .ofPure table (inst_rcall cpu buf len op)
  | .i_ret => .ofPure table (inst_ret cpu buf len op)
  | .i_reti => .ofPure table (inst_reti cpu buf len op)
  | .i_rjmp => .ofPure table (inst_rjmp cpu buf len op)
  | .i_ror => .ofPure table (inst_ror cpu buf len op)
  | .i_sbc => .ofPure table (inst_sbc cpu buf len op)
  | .i_sbci => .ofPure table (inst_sbci cpu buf len op)
  | .i_sub => .ofPure table (inst_sub cpu buf len op)
  | .i_subi => .ofPure table (inst_subi cpu buf len op)
  | .i_sbi => .ofPure table (inst_sbi cpu buf len op)
  | .i_sbiw => .ofPure table (inst_sbiw cpu buf len op)
  | .i_sleep => .ofPure table (inst_sleep cpu buf len op)
  | .i_st => .ofPure table (inst_st cpu buf len op)
  | .i_std => .ofPure table (inst_std cpu buf len op)
  | .i_swap => .ofPure table (inst_swap cpu buf len op)

set_option maxHeartbeats 1000000 in
/-- The `opcodes[]` table (analysis_avr.c lines 1480-1572) in declaration
order.  The `INST_LAST` sentinel only terminates the C iteration and is
dropped. -/
def opcodes : List ODesc :=
  [⟨"break", 0xffff, 0x9698, .i_break, 1, 2, .trap⟩,
   ⟨"eicall", 0xffff, 0x9519, .i_eicall, 0, 2, .ucall⟩,
   ⟨"eijmp", 0xffff, 0x9419, .i_eijmp, 0, 2, .ujmp⟩,
   ⟨"icall", 0xffff, 0x9509, .i_icall, 0, 2, .ucall⟩,
   ⟨"ijmp", 0xffff, 0x9409, .i_ijmp, 0, 2, .ujmp⟩,
   ⟨"lpm", 0xffff, 0x95c8, .i_lpm, 3, 2, .load⟩,
   ⟨"nop", 0xffff, 0x0000, .i_nop, 1, 2, .nop⟩,
   ⟨"ret", 0xffff, 0x9508, .i_ret, 4, 2, .ret⟩,
   ⟨"reti", 0xffff, 0x9518, .i_reti, 4, 2, .ret⟩,
   ⟨"sleep", 0xffff, 0x9588, .i_sleep, 1, 2, .nop⟩,
   ⟨"spm", 0xffff, 0x95e8, .i_spm, 1, 2, .trap⟩,
   ⟨"bclr", 0xff8f, 0x9488, .i_bclr, 1, 2, .mov⟩,
   ⟨"bset", 0xff8f, 0x9408, .i_bset, 1, 2, .mov⟩,
   ⟨"fmul", 0xff88, 0x0308, .i_fmul, 2, 2, .mul⟩,
   ⟨"fmuls", 0xff88, 0x0380, .i_fmuls, 2, 2, .mul⟩,
   ⟨"fmulsu", 0xff88, 0x0388, .i_fmulsu, 2, 2, .mul⟩,
   ⟨"mulsu", 0xff88, 0x0300, .i_mulsu, 2, 2, .and⟩,
   ⟨"des", 0xff0f, 0x940b, .i_des, 0, 2, .crypto⟩,
   ⟨"adiw", 0xff00, 0x9600, .i_adiw, 2, 2, .add⟩,
   ⟨"sbiw", 0xff00, 0x9700, .i_sbiw, 2, 2, .sub⟩,
   ⟨"cbi", 0xff00, 0x9800, .i_cbi, 1, 2, .io⟩,
   ⟨"sbi", 0xff00, 0x9a00, .i_sbi, 1, 2, .io⟩,
   ⟨"movw", 0xff00, 0x0100, .i_movw, 1, 2, .mov⟩,
   ⟨"muls", 0xff00, 0x0200, .i_muls, 2, 2, .and⟩,
   ⟨"asr", 0xfe0f, 0x9405, .i_asr, 1, 2, .sar⟩,
   ⟨"com", 0xfe0f, 0x9400, .i_com, 1, 2, .not⟩,
   ⟨"dec", 0xfe0f, 0x940a, .i_dec, 1, 2, .sub⟩,
   ⟨"elpm", 0xfe0f, 0x9006, .i_elpm, 0, 2, .load⟩,
   ⟨"elpm", 0xfe0f, 0x9007, .i_elpm, 0, 2, .load⟩,
   ⟨"inc", 0xfe0f, 0x9403, .i_inc, 1, 2, .add⟩,
   ⟨"lac", 0xfe0f, 0x9206, .i_lac, 2, 2, .load⟩,
   ⟨"las", 0xfe0f, 0x9205, .i_las, 2, 2, .load⟩,
   ⟨"lat", 0xfe0f, 0x9207, .i_lat, 2, 2, .load⟩,
   ⟨"ld", 0xfe0f, 0x900c, .i_ld, 0, 2, .load⟩,
   ⟨"ld", 0xfe0f, 0x900d, .i_ld, 0, 2, .load⟩,
   ⟨"ld", 0xfe0f, 0x900e, .i_ld, 0, 2, .load⟩,
   ⟨"lds", 0xfe0f, 0x9000, .i_lds, 0, 4, .load⟩,
   ⟨"sts", 0xfe0f, 0x9200, .i_sts, 2, 4, .store⟩,
   ⟨"lpm", 0xfe0f, 0x9004, .i_lpm, 3, 2, .load⟩,
   ⟨"lpm", 0xfe0f, 0x9005, .i_lpm, 3, 2, .load⟩,
   ⟨"lsr", 0xfe0f, 0x9406, .i_lsr, 1, 2, .shr⟩,
   ⟨"neg", 0xfe0f, 0x9401, .i_neg, 2, 2, .sub⟩,
   ⟨"pop", 0xfe0f, 0x900f, .i_pop, 2, 2, .pop⟩,
   ⟨"push", 0xfe0f, 0x920f, .i_push, 0, 2, .push⟩,
   ⟨"ror", 0xfe0f, 0x9407, .i_ror, 1, 2, .sar⟩,
   ⟨"st", 0xfe0f, 0x920c, .i_st, 2, 2, .store⟩,
   ⟨"st", 0xfe0f, 0x920d, .i_st, 0, 2, .store⟩,
   ⟨"st", 0xfe0f, 0x920e, .i_st, 0, 2, .store⟩,
   ⟨"swap", 0xfe0f, 0x9402, .i_swap, 1, 2, .sar⟩,
   ⟨"call", 0xfe0e, 0x940e, .i_call, 0, 4, .call⟩,
   ⟨"jmp", 0xfe0e, 0x940c, .i_jmp, 2, 4, .jmp⟩,
   ⟨"bld", 0xfe08, 0xf800, .i_bld, 1, 2, .mov⟩,
   ⟨"bst", 0xfe08, 0xfa00, .i_bst, 1, 2, .mov⟩,
   ⟨"sbix", 0xff00, 0x9900, .i_sbix, 2, 2, .cjmp⟩,
   ⟨"sbix", 0xff00, 0x9b00, .i_sbix, 2, 2, .cjmp⟩,
   ⟨"sbrx", 0xfe08, 0xfc00, .i_sbrx, 2, 2, .cjmp⟩,
   ⟨"sbrx", 0xfe08, 0xfe00, .i_sbrx, 2, 2, .cjmp⟩,
   ⟨"ldd", 0xfe07, 0x9001, .i_ldd, 0, 2, .load⟩,
   ⟨"ldd", 0xfe07, 0x9002, .i_ldd, 0, 2, .load⟩,
   ⟨"std", 0xfe07, 0x9201, .i_std, 0, 2, .store⟩,
   ⟨"std", 0xfe07, 0x9202, .i_std, 0, 2, .store⟩,
   ⟨"adc", 0xfc00, 0x1c00, .i_adc, 1, 2, .add⟩,
   ⟨"add", 0xfc00, 0x0c00, .i_add, 1, 2, .add⟩,
   ⟨"and", 0xfc00, 0x2000, .i_and, 1, 2, .and⟩,
   ⟨"brbx", 0xfc00, 0xf000, .i_brbx, 0, 2, .cjmp⟩,
   ⟨"brbx", 0xfc00, 0xf400, .i_brbx, 0, 2, .cjmp⟩,
   ⟨"cp", 0xfc00, 0x1400, .i_cp, 1, 2, .cmp⟩,
   ⟨"cpc", 0xfc00, 0x0400, .i_cpc, 1, 2, .cmp⟩,
   ⟨"cpse", 0xfc00, 0x1000, .i_cpse, 0, 2, .cjmp⟩,
   ⟨"eor", 0xfc00, 0x2400, .i_eor, 1, 2, .xor⟩,
   ⟨"mov", 0xfc00, 0x2c00, .i_mov, 1, 2, .mov⟩,
   ⟨"mul", 0xfc00, 0x9c00, .i_mul, 2, 2, .and⟩,
   ⟨"or", 0xfc00, 0x2800, .i_or, 1, 2, .or⟩,
   ⟨"sbc", 0xfc00, 0x0800, .i_sbc, 1, 2, .sub⟩,
   ⟨"sub", 0xfc00, 0x1800, .i_sub, 1, 2, .sub⟩,
   ⟨"in", 0xf800, 0xb000, .i_in, 1, 2, .io⟩,
   ⟨"out", 0xf800, 0xb800, .i_out, 1, 2, .io⟩,
   ⟨"andi", 0xf000, 0x7000, .i_andi, 1, 2, .and⟩,
   ⟨"cpi", 0xf000, 0x3000, .i_cpi, 1, 2, .cmp⟩,
   ⟨"ldi", 0xf000, 0xe000, .i_ldi, 1, 2, .load⟩,
   ⟨"ori", 0xf000, 0x6000, .i_ori, 1, 2, .or⟩,
   ⟨"rcall", 0xf000, 0xd000, .i_rcall, 0, 2, .call⟩,
   ⟨"rjmp", 0xf000, 0xc000, .i_rjmp, 2, 2, .jmp⟩,
   ⟨"sbci", 0xf000, 0x4000, .i_sbci, 1, 2, .sub⟩,
   ⟨"subi", 0xf000, 0x5000, .i_subi, 1, 2, .sub⟩,
   ⟨"ldd", 0xd200, 0x8000, .i_ldd, 0, 2, .load⟩,
   ⟨"std", 0xd200, 0x8200, .i_std, 0, 2, .store⟩]

/-- `set_invalid_op` (lines 1574-1584): the Invalid sentinel — class
Unknown, size = the 2-byte architecture minimum, one cycle, and the single
trapping ESIL effect `1,$`. -/
def set_invalid_op (op : RzOp) (addr : Nat) : RzOp :=
  { op with
    family := .unknown
    type := .unk
    addr := addr
    nopcode := true
    cycles := 1
    size := 2
    esil := "1,$" }

/-- The trailing-comma trim of `avr_op_analyze` ("COMETE LA COMA"): when
the esil text is longer than one character and ends in a comma, that comma
is removed. -/
def trimComma (s : String) : String :=
  if s.data.length > 1 && s.data.getLast? == some ',' then String.mk s.data.dropLast
  else s

/-- Seeding of the op from a matched descriptor before its handler runs
(lines 1600-1610): copy default cycles/size/type, reset jump/fail to
`UT64_MAX`, set the address and start a void esil expression. -/
def seedOp (op0 : RzOp) (desc : ODesc) (addr : Nat) : RzOp :=
  { op0 with
    cycles := desc.cycles
    size := desc.size
    type := desc.type
    jump := UT64MAX
    fail := UT64MAX
    addr := addr
    esil := "" }

/-- `avr_op_analyze` (lines 1586-1639), with the static opcode table and
the nested-call depth made explicit, and recursion bounded by `fuel` (each
nested lookahead call shrinks `len` by 2, so any `fuel > len / 2` behaves
exactly like the unbounded C recursion).  Steps: reject `len < 2` without
touching the op; assemble the little-endian instruction word; linear-scan
the table for the first mask/selector match; seed the op from the
descriptor; run the handler; on handler failure produce the Invalid
sentinel; if the op's cycle count is non-positive, write 2 into the
*table entry's* default cycles (`opcode_desc->cycles = 2` — not into the
returned op); set `nopcode`; trim one trailing comma. -/
def avr_op_analyze : Nat → NDec
  | 0 => fun table _ _ _ _ _ op0 => ⟨none, op0, table, 0⟩
  | fuel + 1 => fun table regs cpu addr buf len op0 =>
    if len < 2 then ⟨none, op0, table, 1⟩
    else
      let ins := (buf.getD 1 0 <<< 8) ||| buf.getD 0 0
      match table.findIdx? (fun d => (ins &&& d.mask) == d.selector) with
      | none => ⟨none, set_invalid_op op0 addr, table, 1⟩
      | some i =>
        match table.get? i with
        | none => ⟨none, set_invalid_op op0 addr, table, 1⟩
        | some desc =>
          let h := runHandler (avr_op_analyze fuel) desc.handler regs cpu table
            buf len (seedOp op0 desc addr)
          if h.fail then ⟨none, set_invalid_op h.op addr, h.table, 1 + h.depth⟩
          else
            let table2 :=
              if h.op.cycles ≤ 0 then
                match h.table.get? i with
                | some e => h.table.set i { e with cycles := 2 }
                | none => h.table
              else h.table
            let op2 := { h.op with nopcode := h.op.type == OpType.unk }
            let op3 := { op2 with esil := trimComma op2.esil }
            ⟨some desc, op3, table2, 1 + h.depth⟩

/-- `archinfo` query codes. -/
inductive ArchInfoQuery where
  | align | maxOpSize | minOpSize | other
deriving DecidableEq, Repr

/-- `archinfo` (lines 2033-2044): alignment 2, maximum opcode size 4,
minimum opcode size 2. -/
def archinfo : ArchInfoQuery → Int
  | .align => 2
  | .maxOpSize => 4
  | .minOpSize => 2
  | .other => 2

/-- `avr_op` (lines 1641-1687), the plugin entry point, with the external
`avr_disassembler` (librz/asm, outside the sources under verification)
abstracted as the argument `disasm`, returning the C return value together
with the written op, the updated model cache and the updated opcode table.
`disasm buf addr` stands for the pair (return value of `avr_disassembler`,
final content of the mnemonic string buffer that was initialized to
"invalid").  The ESIL memory-layout register writes guarded by
`analysis->esil` touch only interpreter register state, never the returned
op, and are omitted.  The final `op->size = size` stores the disassembler's
size (non-negative whenever this point is reached, since a failed
disassembly returns through the "invalid" branch). -/
def avr_op (disasm : List Nat → Nat → Int × String) (cache : Option Nat)
    (regs : EsilRegs) (table : List ODesc) (cpuName : String)
    (addr : Nat) (buf : List Nat) (len : Nat) (op0 : RzOp) :
    Int × RzOp × Option Nat × List ODesc :=
  let op := set_invalid_op op0 addr
  let dres := if len > 1 then disasm buf addr else ((-1 : Int), "invalid")
  let op := { op with mnemonic := dres.2 }
  if op.mnemonic == "invalid" then
    ((-1 : Int), { op with eob := true }, cache, table)
  else
    let c := get_cpu_model cpuName cache
    let r := avr_op_analyze (len / 2 + 1) table regs (getCpu c.1) addr buf len op
    (dres.1, { r.op with size := dres.1.toNat }, c.2, r.table)

end Avr

namespace Avr

/-- The single-slot cache of `get_cpu_model` never changes which model the
lookup produces: with any cache content, the model is the one the plain
table search yields. -/
lemma getCpu_get_cpu_model (name : String) (c : Option Nat) :
    getCpu ((get_cpu_model name c).1) = getCpu (searchCpuModel name) := by
  cases c with
  | none => rfl
  | some i =>
    unfold get_cpu_model
    by_cases h : str_caseeq name (getCpu i).model = true
    · simp only [h, if_true]
      obtain ⟨j, hj8, hij⟩ : ∃ j, j < 8 ∧ getCpu i = getCpu j := by
        by_cases hi : i < 8
        · exact ⟨i, hi, rfl⟩
        · exact ⟨7, by omega, getCpu_high i (by omega)⟩
      have hmatch : name.data.map lowerCode = ((getCpu j).model).data.map lowerCode := by
        have hb := h
        unfold str_caseeq at hb
        rw [hij] at hb
        exact eq_of_beq hb
      rw [searchCpuModel_eq_of_match name j hj8 hmatch, hij]
    · simp only [Bool.not_eq_true] at h
      simp [h]

end Avr

/-- C2, counterexample to the claim as stated: decoding is not a pure
function of (bytes, address, variant) — the IJMP handler reads the live
ESIL `z` register and stores `z << 1` in the op's jump target, so the same
bytes at the same address on the same variant decode to different outputs
under different interpreter states. -/
theorem C2_counterexample_decode_reads_live_state :
    (Avr.avr_op_analyze 4 Avr.opcodes { z := 0 } (Avr.getCpu 7) 0x100
        [0x09, 0x94] 2 {}).op.jump = 0 ∧
    (Avr.avr_op_analyze 4 Avr.opcodes { z := 1 } (Avr.getCpu 7) 0x100
        [0x09, 0x94] 2 {}).op.jump = 2 ∧
    (Avr.avr_op_analyze 4 Avr.opcodes { z := 0 } (Avr.getCpu 7) 0x100
        [0x09, 0x94] 2 {}).op ≠
      (Avr.avr_op_analyze 4 Avr.opcodes { z := 1 } (Avr.getCpu 7) 0x100
        [0x09, 0x94] 2 {}).op := by
  refine ⟨?_, ?_, ?_⟩ <;> decide

/-- C2 as amended: decoding is deterministic in (bytes, address, variant,
live ESIL registers, opcode-table state) and, in particular, independent of
the variant-cache state: whatever the cache slot holds, the model fed to
`avr_op_analyze` — and hence the whole decode result — is the one the plain
table search for the requested name yields. -/
theorem C2_amended_decode_independent_of_variant_cache
    (fuel : Nat) (table : List Avr.ODesc) (regs : Avr.EsilRegs) (name : String)
    (c c' : Option Nat) (addr : Nat) (buf : List Nat) (len : Nat)
    (op0 : Avr.RzOp) :
    Avr.avr_op_analyze fuel table regs
        (Avr.getCpu (Avr.get_cpu_model name c).1) addr buf len op0 =
      Avr.avr_op_analyze fuel table regs
        (Avr.getCpu (Avr.get_cpu_model name c').1) addr buf len op0 := by
  rw [Avr.getCpu_get_cpu_model name c, Avr.getCpu_get_cpu_model name c']

/-- C3: when a matched handler leaves a non-positive cycle count (ELPM,
bytes 06 90: table default 0, handler never sets cycles), the guard
`if (op->cycles <= 0)` fires but its fix `opcode_desc->cycles = 2` writes
the shared *table entry* (index 27), not the returned op — the returned
DecodedInstruction keeps cycle estimate 0, violating the claimed
"at least 1". -/
theorem C3_cycle_clamp_writes_table_not_op :
    (Avr.avr_op_analyze 4 Avr.opcodes {} (Avr.getCpu 7) 0x100
        [0x06, 0x90] 2 {}).op.cycles = 0 ∧
    ((Avr.avr_op_analyze 4 Avr.opcodes {} (Avr.getCpu 7) 0x100
        [0x06, 0x90] 2 {}).table.get? 27).map Avr.ODesc.cycles = some 2 ∧
    (Avr.opcodes.get? 27).map Avr.ODesc.cycles = some 0 ∧
    (Avr.opcodes.get? 27).map Avr.ODesc.name = some "elpm" := by
  refine ⟨?_, ?_, ?_, ?_⟩ <;> decide

/-- C4, counterexample to the claim as stated: the nested lookahead decode
is not capped at depth one.  For CPSE; CPSE; NOP the top-level decode's
lookahead decodes the second CPSE, whose handler issues a further nested
decode of the NOP: the call tree has depth 3, i.e. a nested decode (depth
2) triggered another nested decode (depth 3). -/
theorem C4_counterexample_nested_lookahead_recurses :
    (Avr.avr_op_analyze 4 Avr.opcodes {} (Avr.getCpu 7) 0
        [0x00, 0x10, 0x00, 0x10, 0x00, 0x00] 6 {}).depth = 3 := by
  decide

/-- C4 as amended: the lookahead recursion is not capped at one level, but
every nested decode respects the caller-supplied buffer length — it
receives exactly the remaining `len - size` bytes (each matched entry being
at least 2 bytes wide, as all entries of `opcodes` are) and re-checks that
length itself — so the call-tree depth of a decode of `len` bytes is
bounded by `len / 2 + 1` instead of by a fixed constant. -/
theorem C4_amended_lookahead_depth_bounded (fuel : Nat) :
    ∀ (table : List Avr.ODesc) (regs : Avr.EsilRegs) (cpu : Avr.CPU_MODEL)
      (addr : Nat) (buf : List Nat) (len : Nat) (op0 : Avr.RzOp),
      (∀ d ∈ table, 2 ≤ d.size) →
      (Avr.avr_op_analyze fuel table regs cpu addr buf len op0).depth
        ≤ len / 2 + 1 := by
  induction fuel with
  | zero =>
    intro table regs cpu addr buf len op0 _
    exact Nat.zero_le _
  | succ n ih =>
    intro table regs cpu addr buf len op0 htab
    by_cases hlen : len < 2
    · have hstep : Avr.avr_op_analyze (n + 1) table regs cpu addr buf len op0
          = ⟨none, op0, table, 1⟩ := by
        unfold Avr.avr_op_analyze
        rw [if_pos hlen]
      rw [hstep]
      show 1 ≤ len / 2 + 1
      omega
    · unfold Avr.avr_op_analyze
      simp only [if_neg hlen]
      split
      · show 1 ≤ len / 2 + 1
        omega
      · next i =>
        split
        · show 1 ≤ len / 2 + 1
          omega
        · next desc heq2 =>
          have hdmem : desc ∈ table := List.get?_mem heq2
          have hsz : 2 ≤ desc.size := htab desc hdmem
          have hrh : (Avr.runHandler (Avr.avr_op_analyze n) desc.handler regs cpu
              table buf len (Avr.seedOp op0 desc addr)).depth ≤ (len - 2) / 2 + 1 := by
            have hs2 : 2 ≤ (Avr.seedOp op0 desc addr).size := hsz
            generalize (Avr.seedOp op0 desc addr) = op1 at hs2
            have hres := ih table regs cpu (u64 (op1.addr + op1.size))
              (buf.drop op1.size) (len - op1.size) {} htab
            have h2 : (len - op1.size) / 2 ≤ (len - 2) / 2 :=
              Nat.div_le_div_right (by omega)
            cases htag : desc.handler <;> try exact Nat.zero_le _
            case i_cpse =>
              have hd : (Avr.runHandler (Avr.avr_op_analyze n) Avr.HTag.i_cpse regs cpu
                  table buf len op1).depth
                  = (Avr.avr_op_analyze n table regs cpu (u64 (op1.addr + op1.size))
                      (buf.drop op1.size) (len - op1.size) {}).depth := by
                show (Avr.inst_cpse (Avr.avr_op_analyze n) regs cpu table buf len
                  op1).depth = _
                unfold Avr.inst_cpse
                rw [if_neg hlen]
              rw [hd]
              omega
            case i_sbix =>
              have hd : (Avr.runHandler (Avr.avr_op_analyze n) Avr.HTag.i_sbix regs cpu
                  table buf len op1).depth
                  = (Avr.avr_op_analyze n table regs cpu (u64 (op1.addr + op1.size))
                      (buf.drop op1.size) (len - op1.size) {}).depth := by
                show (Avr.inst_sbix (Avr.avr_op_analyze n) regs cpu table buf len
                  op1).depth = _
                unfold Avr.inst_sbix
                rw [if_neg hlen]
              rw [hd]
              omega
            case i_sbrx =>
              have hd : (Avr.runHandler (Avr.avr_op_analyze n) Avr.HTag.i_sbrx regs cpu
                  table buf len op1).depth
                  = (Avr.avr_op_analyze n table regs cpu (u64 (op1.addr + op1.size))
                      (buf.drop op1.size) (len - op1.size) {}).depth := by
                show (Avr.inst_sbrx (Avr.avr_op_analyze n) regs cpu table buf len
                  op1).depth = _
                unfold Avr.inst_sbrx
                rw [if_neg hlen]
              rw [hd]
              omega
          split
          · show 1 + (Avr.runHandler (Avr.avr_op_analyze n) desc.handler regs cpu
                table buf len (Avr.seedOp op0 desc addr)).depth ≤ len / 2 + 1
            omega
          · show 1 + (Avr.runHandler (Avr.avr_op_analyze n) desc.handler regs cpu
                table buf len (Avr.seedOp op0 desc addr)).depth ≤ len / 2 + 1
            omega

/-- Witness for C4's amended bound at the shipped table and a concrete
skip-chain buffer. -/
theorem C4_amended_witness :
    (Avr.avr_op_analyze 4 Avr.opcodes {} (Avr.getCpu 7) 0
        [0x00, 0x10, 0x00, 0x10, 0x00, 0x00] 6 {}).depth ≤ 6 / 2 + 1 :=
  C4_amended_lookahead_depth_bounded 4 Avr.opcodes {} (Avr.getCpu 7) 0
    [0x00, 0x10, 0x00, 0x10, 0x00, 0x00] 6 {} (by decide)

/-- C6: for every buffer shorter than the 2-byte architecture minimum
(`archinfo minOpSize`), `avr_op` returns -1 and the op it leaves behind is
exactly the Invalid sentinel of `set_invalid_op`: size equal to the minimum,
class Unknown, and the single trapping ESIL effect `1,$` — whatever the
disassembler callback, cache, table, variant and initial op were. -/
theorem C6_short_buffer_yields_invalid_sentinel
    (disasm : List Nat → Nat → Int × String) (cache : Option Nat)
    (regs : Avr.EsilRegs) (table : List Avr.ODesc) (cpuName : String)
    (addr : Nat) (buf : List Nat) (len : Nat) (op0 : Avr.RzOp)
    (h : len < 2) :
    (Avr.avr_op disasm cache regs table cpuName addr buf len op0).1 = -1 ∧
    (Avr.avr_op disasm cache regs table cpuName addr buf len op0).2.1.size = 2 ∧
    (Avr.archinfo .minOpSize : Int) = 2 ∧
    (Avr.avr_op disasm cache regs table cpuName addr buf len op0).2.1.esil = "1,$" ∧
    (Avr.avr_op disasm cache regs table cpuName addr buf len op0).2.1.type = .unk ∧
    (Avr.avr_op disasm cache regs table cpuName addr buf len op0).2.1.family
      = .unknown ∧
    (Avr.avr_op disasm cache regs table cpuName addr buf len op0).2.1.cycles = 1 ∧
    (Avr.avr_op disasm cache regs table cpuName addr buf len op0).2.1.mnemonic
      = "invalid" ∧
    (Avr.avr_op disasm cache regs table cpuName addr buf len op0).2.1.eob = true := by
  have h1 : ¬ (len > 1) := by omega
  unfold Avr.avr_op
  simp only [if_neg h1]
  simp [Avr.set_invalid_op]
  decide

/-- Witness for C6 at the empty buffer. -/
theorem C6_witness :
    (Avr.avr_op (fun _ _ => (0, "")) none {} Avr.opcodes "ATmega8" 0 [] 0
        ({} : Avr.RzOp)).1 = -1 ∧
    (Avr.avr_op (fun _ _ => (0, "")) none {} Avr.opcodes "ATmega8" 0 [] 0
        ({} : Avr.RzOp)).2.1.size = 2 ∧
    (Avr.archinfo .minOpSize : Int) = 2 ∧
    (Avr.avr_op (fun _ _ => (0, "")) none {} Avr.opcodes "ATmega8" 0 [] 0
        ({} : Avr.RzOp)).2.1.esil = "1,$" ∧
    (Avr.avr_op (fun _ _ => (0, "")) none {} Avr.opcodes "ATmega8" 0 [] 0
        ({} : Avr.RzOp)).2.1.type = .unk ∧
    (Avr.avr_op (fun _ _ => (0, "")) none {} Avr.opcodes "ATmega8" 0 [] 0
        ({} : Avr.RzOp)).2.1.family = .unknown ∧
    (Avr.avr_op (fun _ _ => (0, "")) none {} Avr.opcodes "ATmega8" 0 [] 0
        ({} : Avr.RzOp)).2.1.cycles = 1 ∧
    (Avr.avr_op (fun _ _ => (0, "")) none {} Avr.opcodes "ATmega8" 0 [] 0
        ({} : Avr.RzOp)).2.1.mnemonic = "invalid" ∧
    (Avr.avr_op (fun _ _ => (0, "")) none {} Avr.opcodes "ATmega8" 0 [] 0
        ({} : Avr.RzOp)).2.1.eob = true :=
  C6_short_buffer_yields_invalid_sentinel (fun _ _ => (0, "")) none {} Avr.opcodes
    "ATmega8" 0 [] 0 {} (by decide)

namespace Avr

/-- `CPU_PC_SIZE` computes exactly the byte count ⌈pc / 8⌉. -/
lemma CPU_PC_SIZE_eq_ceil (cpu : CPU_MODEL) : CPU_PC_SIZE cpu = (cpu.pc + 7) / 8 := by
  unfold CPU_PC_SIZE
  have hand : cpu.pc &&& 0x07 = cpu.pc % 8 := by
    have h := Nat.and_pow_two_sub_one_eq_mod cpu.pc 3
    norm_num at h
    exact h
  have hshift : cpu.pc >>> 3 = cpu.pc / 8 := by
    have h := Nat.shiftRight_eq_div_pow cpu.pc 3
    norm_num at h
    exact h
  rw [hshift, hand]
  by_cases hz : cpu.pc % 8 = 0
  · rw [hz, if_neg (by decide)]
    omega
  · have hb : (cpu.pc % 8 != 0) = true := by simpa using hz
    rw [hb, if_pos rfl]
    omega

end Avr

/-- C8: every call handler pushes exactly ⌈pc-width / 8⌉ bytes of return
address before emitting the jump.  `CPU_PC_SIZE` equals ⌈pc / 8⌉ for every
model, and each of CALL, RCALL, ICALL, EICALL builds its ESIL program as
"pc," followed by `__generic_push` of that many bytes (the push stores
`=[n]` and drops the stack pointer by `n`), followed by the assignment of
the jump target to `pc`. -/
theorem C8_call_handlers_push_pc_size_bytes (cpu : Avr.CPU_MODEL)
    (regs : Avr.EsilRegs) (buf : List Nat) (len : Nat) (op : Avr.RzOp) :
    Avr.CPU_PC_SIZE cpu = (cpu.pc + 7) / 8 ∧
    (4 ≤ len → ∃ j : Nat, (Avr.inst_call cpu buf len op).1.esil =
      op.esil ++ ("pc," ++ (Avr.generic_push ((cpu.pc + 7) / 8)
        ++ (toString j ++ ",pc,=,")))) ∧
    (2 ≤ len → ∃ j : Nat, (Avr.inst_rcall cpu buf len op).1.esil =
      op.esil ++ ("pc," ++ (Avr.generic_push ((cpu.pc + 7) / 8)
        ++ (toString j ++ ",pc,=,")))) ∧
    ((Avr.inst_icall regs cpu buf len op).1.esil =
      op.esil ++ ("pc," ++ (Avr.generic_push ((cpu.pc + 7) / 8)
        ++ "1,z,<<,pc,=,"))) ∧
    ((Avr.inst_eicall regs cpu buf len op).1.esil =
      op.esil ++ ("pc," ++ (Avr.generic_push ((cpu.pc + 7) / 8)
        ++ "1,z,16,eind,<<,+,<<,pc,=,"))) := by
  refine ⟨Avr.CPU_PC_SIZE_eq_ceil cpu, ?_, ?_, ?_, ?_⟩
  · intro h4
    refine ⟨(buf.getD 2 0 <<< 1) ||| (buf.getD 3 0 <<< 9)
      ||| ((buf.getD 1 0 &&& 0x01) <<< 23) ||| ((buf.getD 0 0 &&& 0x01) <<< 17)
      ||| ((buf.getD 0 0 &&& 0xf0) <<< 14), ?_⟩
    unfold Avr.inst_call
    rw [if_neg (by omega : ¬ len < 4)]
    simp [Avr.CPU_PC_SIZE_eq_ceil, String.append_assoc]
  · intro h2
    refine ⟨u64ofInt ((op.addr : Int) +
      ((if buf.getD 1 0 &&& 0x8 != 0 then
          int32ofU64 (((((buf.getD 1 0 &&& 0xf) <<< 8) ||| buf.getD 0 0) <<< 1)
            ||| 0xffffe000)
        else (((((buf.getD 1 0 &&& 0xf) <<< 8) ||| buf.getD 0 0) <<< 1 : Nat) : Int))
        + 2)), ?_⟩
    unfold Avr.inst_rcall
    rw [if_neg (by omega : ¬ len < 2)]
    simp [Avr.CPU_PC_SIZE_eq_ceil, String.append_assoc]
  · unfold Avr.inst_icall Avr.inst_ijmp
    simp [Avr.CPU_PC_SIZE_eq_ceil, String.append_assoc]
  · unfold Avr.inst_eicall Avr.inst_eijmp
    simp [Avr.CPU_PC_SIZE_eq_ceil, String.append_assoc]

/-- Witness for C8 at the default model and a concrete CALL encoding. -/
theorem C8_witness :
    ∃ j : Nat, (Avr.inst_call (Avr.getCpu 7) [0x0e, 0x94, 0x00, 0x00] 4
        ({} : Avr.RzOp)).1.esil =
      ({} : Avr.RzOp).esil ++ ("pc," ++ (Avr.generic_push (((Avr.getCpu 7).pc + 7) / 8)
        ++ (toString j ++ ",pc,=,"))) :=
  (C8_call_handlers_push_pc_size_bytes (Avr.getCpu 7) {} [0x0e, 0x94, 0x00, 0x00]
    4 {}).2.1 (by decide)

/-! ## AVR plugin: custom ESIL intrinsics -/

namespace Avr

/-- State touched by the SPM page-erase intrinsic: the ESIL value stack
(each entry the numeric value `rz_analysis_esil_get_parm` would produce;
an empty stack is the pop-failure case of `__esil_pop_argument`) and
byte-addressable ESIL memory. -/
structure EsilMemState where
  stack : List Nat
  mem : Nat → Nat

/-- One single-byte `rz_analysis_esil_mem_write`. -/
def esil_mem_write1 (m : Nat → Nat) (a v : Nat) : Nat → Nat :=
  fun x => if x = a then v else m x

/-- The `page_size` constant of a model as the intrinsics read it:
`const_get_value(const_by_name(cpu, CPU_CONST_PARAM, "page_size"))`. -/
def spm_page_bits (cpu : CPU_MODEL) : Nat :=
  const_get_value (const_by_name chainFuel cpu CPU_CONST_PARAM "page_size")

/-- `avr_custom_spm_page_erase` (lines 1766-1797), with the CPU model
passed directly (the C code fetches it via
`get_cpu_model(esil->analysis->cpu)`).  Pops the target address; aligns it
with `addr &= ~(MASK(page_size_bits))` — a 32-bit complement promoted to
64 bits, so the high 32 address bits are cleared as well; then writes
`1 << page_size_bits` bytes of 0xff with each store address masked by
`CPU_PC_MASK(cpu)`. -/
def avr_custom_spm_page_erase (cpu : CPU_MODEL) (st : EsilMemState) :
    Bool × EsilMemState :=
  match st.stack with
  | [] => (false, st)
  | addr :: rest =>
    let page_size_bits := spm_page_bits cpu
    let aligned := addr &&& (0xffffffff - MASK page_size_bits)
    let mem := (List.range (2 ^ page_size_bits)).foldl
      (fun m i => esil_mem_write1 m ((aligned + i) &&& CPU_PC_MASK cpu) 0xff)
      st.mem
    (true, ⟨rest, mem⟩)

/-- Abstract interface to the rz_crypto DES primitives called by
`avr_custom_des` (`rz_des_permute_key`, `rz_des_shift_key`, `rz_des_pc2`,
`rz_des_permute_block0`, `rz_des_permute_block1`, `rz_des_round`,
`rz_des_permute_key_inv` — librz/crypto, outside the sources under
verification); each field mirrors the in/out-parameter shape of the C
function it stands for, and the error-path facts proved about
`avr_custom_des` hold for every instantiation. -/
structure DesOps where
  permute_key : Nat × Nat → Nat × Nat
  shift_key : Int → Bool → Nat × Nat → Nat × Nat
  pc2 : Nat → Nat → Nat × Nat
  permute_block0 : Nat × Nat → Nat × Nat
  permute_block1 : Nat × Nat → Nat × Nat
  des_round : Nat × Nat → Nat × Nat → Nat × Nat
  permute_key_inv : Nat × Nat → Nat × Nat

/-- ESIL state touched by `avr_custom_des`: the value stack, the byte
registers r0..r15 (indexed 0..15; the handler truncates each read value to
one byte) and the `hf` flag value. -/
structure DesState where
  stack : List Nat
  regs : Nat → Nat
  hf : Nat

/-- `rz_read_at_le32` over the r0..r15 byte array. -/
def rz_read_at_le32 (b : Nat → Nat) (off : Nat) : Nat :=
  b off + 2 ^ 8 * b (off + 1) + 2 ^ 16 * b (off + 2) + 2 ^ 24 * b (off + 3)

/-- Byte `j` of a 32-bit value as `rz_write_at_le32` lays it out. -/
def byte_of_le32 (v : Nat) (j : Nat) : Nat := (v >>> (8 * j)) &&& 0xff

/-- Success path of `avr_custom_des` (lines 1701-1762) after the argument
checks: read `hf`, load r0..r15 as two 8-byte blocks, run the DES round
using the abstract primitives, restore the key parity bits, and write the
blocks back into r0..r15. -/
def avr_custom_des_core (ops : DesOps) (st : DesState) (arg : Nat)
    (round : Int) : DesState :=
  let decrypt := st.hf
  let round2 : Int := if decrypt != 0 then 15 - round else round
  let b := fun i => st.regs i % 2 ^ 8
  let buf_hi := rz_read_at_le32 b 0
  let buf_lo := rz_read_at_le32 b 4
  let key_orig_hi := rz_read_at_le32 b 8
  let key_orig_lo := rz_read_at_le32 b 12
  let kp := ops.permute_key (key_orig_lo, key_orig_hi)
  let kp := if decrypt == 0 then ops.shift_key round2 false kp else kp
  let rk := ops.pc2 kp.1 kp.2
  let kp := if decrypt != 0 then ops.shift_key round2 true kp else kp
  let bp := ops.permute_block0 (buf_lo, buf_hi)
  let bp := ops.des_round bp rk
  let bl :=
    if arg < 15 then ops.permute_block1 (bp.1, bp.2)
    else
      let p := ops.permute_block1 (bp.2, bp.1)
      (p.1, p.2)
  let kinv := ops.permute_key_inv kp
  let key_lo2 := kinv.1 ||| (key_orig_hi &&& 0x01010101)
  let key_hi2 := kinv.2 ||| (key_orig_lo &&& 0x01010101)
  let regs2 : Nat → Nat := fun i =>
    if i < 4 then byte_of_le32 bl.2 i
    else if i < 8 then byte_of_le32 bl.1 (i - 4)
    else if i < 12 then byte_of_le32 key_lo2 (i - 8)
    else if i < 16 then byte_of_le32 key_hi2 (i - 12)
    else st.regs i
  ⟨st.stack, regs2, st.hf⟩

/-- `avr_custom_des` (lines 1689-1763): pop the round argument (failure on
an empty stack touches nothing); truncate it to a C `int`; reject values
outside 0..15 after that truncation, with no register or memory writes;
otherwise run the keyed round and report success. -/
def avr_custom_des (ops : DesOps) (st : DesState) : Bool × DesState :=
  match st.stack with
  | [] => (false, st)
  | arg :: rest =>
    let st1 : DesState := { st with stack := rest }
    let round : Int := int32ofU64 arg
    if round < 0 ∨ round > 15 then (false, st1)
    else (true, avr_custom_des_core ops st1 arg round)

end Avr

/-! ## C7: SPM page erase -/

/-- `MASK(bits)` is the low-bits mask for every argument the plugin uses
(at 32 both branches coincide). -/
lemma MASK_eq (b : Nat) : MASK b = 2 ^ b - 1 := by
  unfold MASK
  by_cases hb : b = 32
  · subst hb; norm_num
  · simp [hb]

/-- Clearing the low `k` bits of a 32-bit value with `A & (2^32 - 2^k)`
rounds it down to a multiple of `2^k`. -/
lemma land_align (A k : Nat) (hk : k ≤ 32) (hA : A < 2 ^ 32) :
    A &&& (2 ^ 32 - 2 ^ k) = 2 ^ k * (A / 2 ^ k) := by
  have hmask : 2 ^ 32 - 2 ^ k = (2 ^ (32 - k) - 1) <<< k := by
    have h32 : 32 - k + k = 32 := by omega
    rw [Nat.shiftLeft_eq, Nat.sub_mul, one_mul, ← pow_add, h32]
  have hrhs : 2 ^ k * (A / 2 ^ k) = (A >>> k) <<< k := by
    rw [Nat.shiftLeft_eq, Nat.shiftRight_eq_div_pow, Nat.mul_comm]
  rw [hmask, hrhs]
  apply Nat.eq_of_testBit_eq
  intro i
  rw [Nat.testBit_land, Nat.testBit_shiftLeft, Nat.testBit_shiftLeft,
    Nat.testBit_two_pow_sub_one, Nat.testBit_shiftRight]
  by_cases hki : i ≥ k
  · by_cases hi32 : i < 32
    · have h1 : i - k < 32 - k := by omega
      have h2 : k + (i - k) = i := by omega
      simp [hki, h1, h2]
    · have hbit : A.testBit i = false :=
        Nat.testBit_lt_two_pow
          (lt_of_lt_of_le hA (Nat.pow_le_pow_right (by norm_num) (by omega)))
      have h1 : ¬ i - k < 32 - k := by omega
      have h2 : k + (i - k) = i := by omega
      simp [hki, h1, h2, hbit]
  · simp [hki]

/-- Pointwise effect of the erase loop: folding single-byte 0xff writes over
`range n` starting at `base` paints exactly `[base, base + n)`. -/
lemma foldl_write_range (mem : Nat → Nat) (base n a : Nat) :
    ((List.range n).foldl
        (fun m i => Avr.esil_mem_write1 m (base + i) 0xff) mem) a =
      if base ≤ a ∧ a < base + n then 0xff else mem a := by
  induction n with
  | zero =>
    simp only [List.range_zero, List.foldl_nil]
    rw [if_neg (by omega)]
  | succ n ih =>
    rw [List.range_succ, List.foldl_append]
    simp only [List.foldl_cons, List.foldl_nil, Avr.esil_mem_write1]
    by_cases ha : a = base + n
    · subst ha
      rw [if_pos rfl, if_pos (by omega : base ≤ base + n ∧ base + n < base + (n + 1))]
    · rw [if_neg ha, ih]
      by_cases h1 : base ≤ a ∧ a < base + n
      · rw [if_pos h1, if_pos (by omega)]
      · rw [if_neg h1, if_neg (by omega)]

/-- C7: counterexample.  On the default model ATmega8 (pc = 13 bits,
page_size = 5 bits), erasing the page of address 0x3000 leaves the byte at
0x3000 — inside the aligned page the claim designates — untouched, while
writing 0xff at 0x1000, far outside it: every store address is additionally
wrapped by `& CPU_PC_MASK(cpu)` (line 1793), which the claim omits.  The
intrinsic still reports success. -/
theorem C7_counterexample_page_erase_wraps_at_pc_mask :
    (Avr.avr_custom_spm_page_erase (Avr.getCpu 7)
        ⟨[0x3000], fun _ => 0⟩).1 = true ∧
    (Avr.avr_custom_spm_page_erase (Avr.getCpu 7)
        ⟨[0x3000], fun _ => 0⟩).2.mem 0x3000 = 0 ∧
    (Avr.avr_custom_spm_page_erase (Avr.getCpu 7)
        ⟨[0x3000], fun _ => 0⟩).2.mem 0x1000 = 0xff := by
  decide

/-- C7 (amended): for a popped address `A` below 2^32 whose aligned page
`[2^k * (A / 2^k), 2^k * (A / 2^k) + 2^k)` lies entirely inside the
program-counter address space `2^pc` (so the `& CPU_PC_MASK` wrap at line
1793 is the identity), the page-erase intrinsic succeeds, consumes exactly
the popped argument, and its memory effect is pointwise: 0xff on the
aligned 2^k-byte page, untouched everywhere else — where `k` is the
variant's `page_size` constant. -/
theorem C7_amended_page_erase_fills_aligned_page (cpu : Avr.CPU_MODEL)
    (A : Nat) (rest : List Nat) (mem0 : Nat → Nat) (a : Nat)
    (hk : Avr.spm_page_bits cpu ≤ 32) (hA : A < 2 ^ 32)
    (hfit : 2 ^ Avr.spm_page_bits cpu * (A / 2 ^ Avr.spm_page_bits cpu) +
        2 ^ Avr.spm_page_bits cpu ≤ 2 ^ cpu.pc) :
    (Avr.avr_custom_spm_page_erase cpu ⟨A :: rest, mem0⟩).1 = true ∧
    (Avr.avr_custom_spm_page_erase cpu ⟨A :: rest, mem0⟩).2.stack = rest ∧
    (Avr.avr_custom_spm_page_erase cpu ⟨A :: rest, mem0⟩).2.mem a =
      if 2 ^ Avr.spm_page_bits cpu * (A / 2 ^ Avr.spm_page_bits cpu) ≤ a ∧
          a < 2 ^ Avr.spm_page_bits cpu * (A / 2 ^ Avr.spm_page_bits cpu) +
              2 ^ Avr.spm_page_bits cpu
      then 0xff else mem0 a := by
  have hstep : Avr.avr_custom_spm_page_erase cpu ⟨A :: rest, mem0⟩ =
      (true, ⟨rest, (List.range (2 ^ Avr.spm_page_bits cpu)).foldl
        (fun m i => Avr.esil_mem_write1 m
          (((A &&& (0xffffffff - MASK (Avr.spm_page_bits cpu))) + i) &&&
            Avr.CPU_PC_MASK cpu) 0xff) mem0⟩) := rfl
  rw [hstep]
  refine ⟨rfl, rfl, ?_⟩
  have halign : A &&& (0xffffffff - MASK (Avr.spm_page_bits cpu)) =
      2 ^ Avr.spm_page_bits cpu * (A / 2 ^ Avr.spm_page_bits cpu) := by
    have h1 : (1 : Nat) ≤ 2 ^ Avr.spm_page_bits cpu := Nat.one_le_two_pow
    have h2 : 2 ^ Avr.spm_page_bits cpu ≤ 2 ^ 32 :=
      Nat.pow_le_pow_right (by norm_num) hk
    have hm : (0xffffffff : Nat) - MASK (Avr.spm_page_bits cpu) =
        2 ^ 32 - 2 ^ Avr.spm_page_bits cpu := by
      rw [MASK_eq]
      set pk := 2 ^ Avr.spm_page_bits cpu with hpk
      omega
    rw [hm]
    exact land_align A _ hk hA
  rw [halign]
  have hext : (List.range (2 ^ Avr.spm_page_bits cpu)).foldl
      (fun m i => Avr.esil_mem_write1 m
        ((2 ^ Avr.spm_page_bits cpu * (A / 2 ^ Avr.spm_page_bits cpu) + i) &&&
          Avr.CPU_PC_MASK cpu) 0xff) mem0 =
    (List.range (2 ^ Avr.spm_page_bits cpu)).foldl
      (fun m i => Avr.esil_mem_write1 m
        (2 ^ Avr.spm_page_bits cpu * (A / 2 ^ Avr.spm_page_bits cpu) + i) 0xff)
      mem0 := by
    apply List.foldl_ext
    intro m i hi
    have hi' : i < 2 ^ Avr.spm_page_bits cpu := List.mem_range.mp hi
    unfold Avr.CPU_PC_MASK
    rw [MASK_eq, Nat.and_pow_two_sub_one_eq_mod,
      Nat.mod_eq_of_lt (lt_of_lt_of_le (Nat.add_lt_add_left hi' _) hfit)]
  rw [hext]
  exact foldl_write_range mem0 _ _ a

/-- C7 witness: ATmega8, popped address 0x123 (page bits 5, aligned page
base 0x120); the byte at 0x130 lies inside the page. -/
theorem C7_amended_witness :
    Avr.spm_page_bits (Avr.getCpu 7) ≤ 32 ∧ (0x123 : Nat) < 2 ^ 32 ∧
    2 ^ Avr.spm_page_bits (Avr.getCpu 7) *
        (0x123 / 2 ^ Avr.spm_page_bits (Avr.getCpu 7)) +
        2 ^ Avr.spm_page_bits (Avr.getCpu 7) ≤ 2 ^ (Avr.getCpu 7).pc ∧
    ((Avr.avr_custom_spm_page_erase (Avr.getCpu 7)
        ⟨[0x123], fun _ => 0⟩).1 = true ∧
      (Avr.avr_custom_spm_page_erase (Avr.getCpu 7)
        ⟨[0x123], fun _ => 0⟩).2.stack = [] ∧
      (Avr.avr_custom_spm_page_erase (Avr.getCpu 7)
        ⟨[0x123], fun _ => 0⟩).2.mem 0x130 =
        if 2 ^ Avr.spm_page_bits (Avr.getCpu 7) *
              (0x123 / 2 ^ Avr.spm_page_bits (Avr.getCpu 7)) ≤ 0x130 ∧
            0x130 < 2 ^ Avr.spm_page_bits (Avr.getCpu 7) *
              (0x123 / 2 ^ Avr.spm_page_bits (Avr.getCpu 7)) +
              2 ^ Avr.spm_page_bits (Avr.getCpu 7)
        then 0xff else 0) :=
  ⟨by decide, by decide, by decide,
    C7_amended_page_erase_fills_aligned_page (Avr.getCpu 7) 0x123 [] (fun _ => 0)
      0x130 (by decide) (by decide) (by decide)⟩

/-! ## C10: DES round intrinsic error paths -/

namespace Avr

/-- A degenerate instantiation of the abstract DES primitive interface
(identity permutations, pass-through round), used only to run the wrapper
on concrete inputs; the wrapper theorems hold for every instantiation. -/
def idDesOps : DesOps where
  permute_key := id
  shift_key := fun _ _ p => p
  pc2 := fun a b => (a, b)
  permute_block0 := id
  permute_block1 := id
  des_round := fun b _ => b
  permute_key_inv := id

end Avr

/-- C10: counterexample.  The popped 64-bit round argument 2^32 is far
outside 0..15, yet the intrinsic reports success: line 1697 truncates the
`ut64` argument with `int round = arg` before the range check, so 2^32
becomes round 0 and the check at line 1698 passes. -/
theorem C10_counterexample_round_index_truncated :
    (15 : Nat) < 2 ^ 32 ∧
    (Avr.avr_custom_des Avr.idDesOps ⟨[2 ^ 32], fun _ => 0, 0⟩).1 = true ∧
    (Avr.avr_custom_des Avr.idDesOps ⟨[2 ^ 32], fun _ => 0, 0⟩).2.stack = [] := by
  refine ⟨by decide, ?_, ?_⟩ <;> rfl

/-- C10 (amended): for every instantiation of the DES primitives — a pop
failure (empty stack) returns failure with the state fully unchanged; a
popped argument whose low 32 bits, read as a signed `int`, fall outside
0..15 (equivalently `arg mod 2^32 > 15`) returns failure with registers and
flag untouched and only the argument consumed; an argument whose low 32
bits are within 0..15 returns success. -/
theorem C10_amended_des_round_check_after_truncation (ops : Avr.DesOps)
    (arg : Nat) (rest : List Nat) (regs : Nat → Nat) (hf : Nat) :
    Avr.avr_custom_des ops ⟨[], regs, hf⟩ = (false, ⟨[], regs, hf⟩) ∧
    (15 < arg % 2 ^ 32 →
      Avr.avr_custom_des ops ⟨arg :: rest, regs, hf⟩ = (false, ⟨rest, regs, hf⟩)) ∧
    (arg % 2 ^ 32 ≤ 15 →
      (Avr.avr_custom_des ops ⟨arg :: rest, regs, hf⟩).1 = true) := by
  have hstep : Avr.avr_custom_des ops ⟨arg :: rest, regs, hf⟩ =
      if int32ofU64 arg < 0 ∨ int32ofU64 arg > 15 then (false, ⟨rest, regs, hf⟩)
      else (true, Avr.avr_custom_des_core ops ⟨rest, regs, hf⟩ arg
        (int32ofU64 arg)) := rfl
  refine ⟨rfl, ?_, ?_⟩
  · intro h
    have hcond : int32ofU64 arg < 0 ∨ int32ofU64 arg > 15 := by
      simp only [int32ofU64]
      by_cases hl : arg % 2 ^ 32 < 2 ^ 31
      · rw [if_pos hl]
        right
        exact_mod_cast h
      · rw [if_neg hl]
        left
        have hm : arg % 2 ^ 32 < 2 ^ 32 := Nat.mod_lt _ (by norm_num)
        omega
    rw [hstep, if_pos hcond]
  · intro h
    have hcond : ¬ (int32ofU64 arg < 0 ∨ int32ofU64 arg > 15) := by
      simp only [int32ofU64]
      rw [if_pos (by omega : arg % 2 ^ 32 < 2 ^ 31)]
      omega
    rw [hstep, if_neg hcond]

/-- C10 witness: argument 20 (low bits 20 > 15) is rejected with registers
untouched; argument 7 succeeds. -/
theorem C10_amended_witness :
    (15 < 20 % 2 ^ 32 ∧
      Avr.avr_custom_des Avr.idDesOps ⟨20 :: [], fun _ => 0, 0⟩ =
        (false, ⟨[], fun _ => 0, 0⟩)) ∧
    (7 % 2 ^ 32 ≤ 15 ∧
      (Avr.avr_custom_des Avr.idDesOps ⟨7 :: [], fun _ => 0, 0⟩).1 = true) :=
  ⟨⟨by decide, (C10_amended_des_round_check_after_truncation Avr.idDesOps 20 []
      (fun _ => 0) 0).2.1 (by decide)⟩,
    ⟨by decide, (C10_amended_des_round_check_after_truncation Avr.idDesOps 7 []
      (fun _ => 0) 0).2.2 (by decide)⟩⟩
